import Mathlib

/-!
Shallow embedding of the slide-to-video assembly pipeline of
`src/main.py` (placement-cell company information and video generator),
together with proofs about its rendering, clip building, parallel
assembly, and export behaviour.

External libraries (PIL, moviepy, gTTS, the filesystem) are modelled by
an explicit environment: font availability, text measurement, the salted
Python string hash, injected failure points for every guarded external
call, and per-slide audio-synthesis outcomes.  Durations are idealised
as rationals, images as the ordered list of drawing commands applied to
a canvas, and the filesystem as the list of artifact paths created by
one run.
-/

/-- The scanning loop behind Python `str.split()`: `acc` holds the
(reversed) characters of the word currently being read. -/
def wsSplitAux : List Char → List Char → List (List Char)
  | [], acc => if acc = [] then [] else [acc.reverse]
  | c :: cs, acc =>
    if c.isWhitespace then
      if acc = [] then wsSplitAux cs []
      else acc.reverse :: wsSplitAux cs []
    else wsSplitAux cs (c :: acc)

/-- Python `str.split()` on a character list: the maximal runs of
non-whitespace characters, with empty pieces discarded. -/
def wsSplit (l : List Char) : List (List Char) :=
  wsSplitAux l []

/-- Python `text.split()` for strings. -/
def pySplitWs (s : String) : List String :=
  (wsSplit s.data).map (fun l => ⟨l⟩)

/-- Python `str.strip()`: remove leading and trailing whitespace. -/
def pyStrip (s : String) : String :=
  ⟨((s.data.dropWhile Char.isWhitespace).reverse.dropWhile Char.isWhitespace).reverse⟩

/-- Python `str.upper()`. -/
def pyUpper (s : String) : String :=
  ⟨s.data.map Char.toUpper⟩

/-- Python `' '.join(words)`. -/
def joinSpace : List String → String
  | [] => ""
  | [w] => w
  | w :: ws => w ++ " " ++ joinSpace ws

/-- Python `range(start, stop, step)` for a positive `step`. -/
def pythonRange (start stop step : Int) : List Int :=
  if step ≤ 0 then []
  else (List.range ((stop - start + step - 1).fdiv step).toNat).map
    (fun k => start + step * (k : Int))

/-- A PIL font handle as resolved by the generator: either a TrueType
font loaded from a path at a given size, or PIL's built-in default
font. -/
inductive PFont
  | truetype (path : String) (size : Nat)
  | defaultFont
deriving DecidableEq

/-- A fill color: an RGB or RGBA tuple, or a named/hex color string. -/
inductive PColor
  | rgb (r g b : Nat)
  | rgba (r g b a : Nat)
  | named (s : String)
deriving DecidableEq

/-- One drawing command recorded on an in-memory image; the pixel raster
produced by PIL is abstracted as the ordered list of commands applied to
the canvas. -/
inductive DrawOp
  | line (x1 y1 x2 y2 : Int) (c : PColor) (lineWidth : Nat)
  | rect (x1 y1 x2 y2 : Int) (c : PColor)
  | ellipse (x1 y1 x2 y2 : Int) (c : PColor)
  | ellipseOutline (x1 y1 x2 y2 : Int) (c : PColor) (outlineWidth : Nat)
  | text (x y : Int) (s : String) (f : PFont) (c : PColor)
  | pasteLogo (x y w h : Int)
  | effect (name : String)
deriving DecidableEq

/-- An in-memory PIL image: mode, size, background fill, and the ordered
drawing commands applied to it since creation. -/
structure Img where
  mode : String
  width : Nat
  height : Nat
  bg : PColor
  ops : List DrawOp
deriving DecidableEq

/-- The ambient environment of one rendering process: which font files
exist and load, PIL text measurement (`textbbox`/`getbbox`), PIL
thumbnail scaling, the salted Python string `hash`, injected failure
points for the guarded external sub-steps, and an ambient randomness
source (which rendering never consults). -/
structure RenderEnv where
  pathExists : String → Bool
  fontLoadFails : String → Bool
  textBBox : PFont → String → Int × Int × Int × Int
  thumbFit : Nat × Nat → Nat → Nat × Nat
  strHash : String → Int
  logoPasteFails : Bool
  effectsFail : Bool
  rand : Nat → Nat

/-- Width `bbox[2] - bbox[0]` of the text bounding box reported by the
font/draw measurement. -/
def bboxW (env : RenderEnv) (f : PFont) (s : String) : Int :=
  (env.textBBox f s).2.2.1 - (env.textBBox f s).1

/-- The `VideoConfig` dataclass: professional video configuration. -/
structure VideoConfig where
  resolution : Nat × Nat := (1920, 1080)
  fps : Nat := 30
  video_codec : String := "libx264"
  audio_codec : String := "aac"
  preset : String := "medium"
  crf : Nat := 23
  max_slide_duration : ℚ := 20
  min_slide_duration : ℚ := 3
  fade_duration : ℚ := 1/2
  background_music : Bool := false
  watermark : Bool := true
  subtitle_support : Bool := true
deriving DecidableEq

/-- One parsed slide: a `{title, content}` record. -/
structure Slide where
  title : String
  content : String
deriving DecidableEq

/-- The candidate font files probed in order by `_get_font`. -/
def font_paths : List String :=
  ["/System/Library/Fonts/Arial.ttf",
   "/usr/share/fonts/truetype/dejavu/DejaVuSans-Bold.ttf",
   "C:/Windows/Fonts/arial.ttf"]

/-- The probe loop of `_get_font`: a candidate is used when it exists
and loads; any probe failure is skipped (`except: continue`). -/
def getFontLoop (env : RenderEnv) (base_size : Nat) : List String → PFont
  | [] => PFont.defaultFont
  | p :: ps =>
    if env.pathExists p && !env.fontLoadFails p then PFont.truetype p base_size
    else getFontLoop env base_size ps

/-- `_get_font`: size from the canvas width, probe the platform font
candidates in order, and fall back to PIL's default font when none
loads.  Structurally total: it never raises. -/
def _get_font (env : RenderEnv) (font_type : String) (width : Nat) : PFont :=
  let base_size := if font_type = "title" then width / 25 else width / 35
  getFontLoop env base_size font_paths

/-- Append drawing commands to an image. -/
def drawOps (img : Img) (l : List DrawOp) : Img :=
  { img with ops := img.ops ++ l }

/-- `_add_geometric_patterns`: diagonal lines at a fixed spacing of
100 pixels. -/
def _add_geometric_patterns (width height : Nat) (c : PColor) : List DrawOp :=
  (pythonRange (-(height : Int)) (width : Int) 100).map
    (fun x => DrawOp.line x 0 (x + (height : Int)) (height : Int) c 1)

/-- `_apply_corporate_template`: vertical dark-to-light blue gradient
plus subtle geometric pattern lines. -/
def _apply_corporate_template (img : Img) (width height : Nat) : Img :=
  let grad := (List.range height).map (fun (y : Nat) =>
    DrawOp.line 0 (y : Int) (width : Int) (y : Int)
      (PColor.rgb (25 + 70 * y / height) (50 + 120 * y / height)
        (100 + 155 * y / height)) 0)
  drawOps img (grad ++ _add_geometric_patterns width height (PColor.rgba 255 255 255 30))

/-- `_apply_modern_template`: multi-color gradient plus accent lines
every 150 pixels. -/
def _apply_modern_template (img : Img) (width height : Nat) : Img :=
  let grad := (List.range height).map (fun (y : Nat) =>
    DrawOp.line 0 (y : Int) (width : Int) (y : Int)
      (PColor.rgb (45 + 155 * y / height) (25 + 200 * y / height)
        (85 + 170 * y / height)) 0)
  let accents := (pythonRange 0 (width : Int) 150).map
    (fun i => DrawOp.line i 0 (i + 100) (height : Int) (PColor.rgba 255 255 255 100) 2)
  drawOps img (grad ++ accents)

/-- `_apply_minimalist_template`: clean background with a minimal accent
bar across the top twentieth of the canvas. -/
def _apply_minimalist_template (img : Img) (width height : Nat) : Img :=
  drawOps img
    [DrawOp.rect 0 0 (width : Int) (height : Int) (PColor.rgb 248 249 250),
     DrawOp.rect 0 0 (width : Int) ((height / 20 : Nat) : Int) (PColor.rgb 59 130 246)]

/-- `_apply_default_template`: professional gray gradient (the `int()`
truncation of `240 - 40 * y / height` is a ceiling subtraction on the
exact rational value). -/
def _apply_default_template (img : Img) (width height : Nat) : Img :=
  drawOps img ((List.range height).map (fun (y : Nat) =>
    let gray := 240 - (40 * y + height - 1) / height
    DrawOp.line 0 (y : Int) (width : Int) (y : Int) (PColor.rgb gray gray gray) 0))

/-- `_add_company_logo`: scale the logo proportionally to at most an
eighth of the canvas and paste it in the top-right corner; any failure
is caught, logged, and leaves the image unchanged. -/
def _add_company_logo (env : RenderEnv) (img : Img) (logo : Img) (width height : Nat) : Img :=
  if env.logoPasteFails then img
  else
    let logo_size := min (width / 8) (height / 8)
    let scaled := env.thumbFit (logo.width, logo.height) logo_size
    let logo_x := (width : Int) - (scaled.1 : Int) - 50
    drawOps img [DrawOp.pasteLogo logo_x 50 (scaled.1 : Int) (scaled.2 : Int)]

/-- Python `shadow_color[:3]`: drop the alpha component. -/
def colorRGB3 : PColor → PColor
  | PColor.rgba r g b _ => PColor.rgb r g b
  | c => c

/-- `_draw_text_with_shadow`: measure the text, compute the aligned x
offset (centering uses floor division of `width - text_width` by 2),
draw a shadow copy offset by 3 pixels, then the main text. -/
def _draw_text_with_shadow (env : RenderEnv) (img : Img) (text : String) (font : PFont)
    (width : Nat) (y : Int) (align : String) (text_color : PColor) (shadow_color : PColor) :
    Img :=
  let text_width := bboxW env font text
  let x : Int :=
    if align = "center" then Int.fdiv ((width : Int) - text_width) 2
    else if align = "right" then (width : Int) - text_width - 50
    else 50
  drawOps img
    [DrawOp.text (x + 3) (y + 3) text font (colorRGB3 shadow_color),
     DrawOp.text x y text font text_color]

/-- The word loop of `_wrap_text`: greedily pack words into the current
line while the joined test line still measures within `max_width`; a
word that does not fit starts a new line, or becomes its own line when
the current line is empty. -/
def wrapLoop (env : RenderEnv) (font : PFont) (max_width : Int) :
    List String → List String → List String
  | [], current_line => if current_line.isEmpty then [] else [joinSpace current_line]
  | word :: words, current_line =>
    let test_line := joinSpace (current_line ++ [word])
    if bboxW env font test_line ≤ max_width then
      wrapLoop env font max_width words (current_line ++ [word])
    else
      if !current_line.isEmpty then
        joinSpace current_line :: wrapLoop env font max_width words [word]
      else
        word :: wrapLoop env font max_width words []

/-- `_wrap_text`: split the text into whitespace-separated words and
pack them into measured lines. -/
def _wrap_text (env : RenderEnv) (text : String) (font : PFont) (max_width : Int) :
    List String :=
  wrapLoop env font max_width (pySplitWs text) []

/-- The content-line loop of `_add_slide_content`: draw the i-th wrapped
line at `content_y + 80 i`, only while that offset stays above the
bottom margin. -/
def drawContentLines (env : RenderEnv) (font : PFont) (width height : Nat)
    (content_y : Int) : Img → List (Nat × String) → Img
  | img, [] => img
  | img, (i, line) :: rest =>
    let line_y := content_y + (i : Int) * 80
    let img1 := if line_y < (height : Int) - 100 then
        _draw_text_with_shadow env img line font width line_y "center"
          (PColor.rgb 255 255 255) (PColor.rgba 0 0 0 100)
      else img
    drawContentLines env font width height content_y img1 rest

/-- `_add_slide_content`: load the fonts, draw the stripped title
centered with a shadow when non-empty, then wrap the stripped content
and draw each line that fits vertically.  The guarding `try` of the
source can only catch failures of operations that are total here. -/
def _add_slide_content (env : RenderEnv) (img : Img) (slide : Slide) (width height : Nat) :
    Img :=
  let title_font := _get_font env "title" width
  let content_font := _get_font env "content" width
  let title := pyStrip slide.title
  let img1 :=
    if title ≠ "" then
      _draw_text_with_shadow env img title title_font width ((height / 6 : Nat) : Int)
        "center" (PColor.rgb 255 255 255) (PColor.rgba 0 0 0 128)
    else img
  let content := pyStrip slide.content
  if content ≠ "" then
    let content_y := ((height / 3 : Nat) : Int)
    let content_lines := _wrap_text env content content_font ((width : Int) - 200)
    drawContentLines env content_font width height content_y img1 content_lines.enum
  else img1

/-- `_add_slide_metadata`: footer progress bar (background, then a fill
of fraction `slide_num / total_slides`) plus an "i / N" label; the
Python division raises `ZeroDivisionError` when `total_slides = 0`, so
the result is an error exactly then. -/
def _add_slide_metadata (env : RenderEnv) (img : Img) (slide_num total_slides : Nat)
    (width height : Nat) : Except Unit Img :=
  if total_slides = 0 then Except.error ()
  else
    let progress_width : Int := (width : Int) - 100
    let progress_x : Int := 50
    let progress_y : Int := (height : Int) - 60
    let fill_width : Int := Int.tdiv ((slide_num : Int) * progress_width) (total_slides : Int)
    let font := _get_font env "content" width
    Except.ok (drawOps img
      [DrawOp.rect progress_x progress_y (progress_x + progress_width) (progress_y + 8)
         (PColor.rgb 200 200 200),
       DrawOp.rect progress_x progress_y (progress_x + fill_width) (progress_y + 8)
         (PColor.rgb 59 130 246),
       DrawOp.text progress_x (progress_y - 30)
         (toString slide_num ++ " / " ++ toString total_slides) font
         (PColor.rgb 100 100 100)])

/-- `_apply_visual_effects`: sharpening, contrast enhancement, and a
color boost for the modern template; any failure is caught and the
image is returned as-is. -/
def _apply_visual_effects (env : RenderEnv) (img : Img) (template : String) : Img :=
  if env.effectsFail then img
  else
    let img1 := drawOps img [DrawOp.effect "UnsharpMask", DrawOp.effect "Contrast"]
    if template = "modern" then drawOps img1 [DrawOp.effect "Color"] else img1

/-- The slide-number-independent prefix of `_create_enhanced_slide`:
base white canvas at the configured resolution, template background
(unknown template names fall back to the default scheme), optional
logo, and slide content. -/
def _create_enhanced_slide_base (env : RenderEnv) (config : VideoConfig) (slide : Slide)
    (template : String) (company_logo : Option Img) : Img :=
  let width := config.resolution.1
  let height := config.resolution.2
  let img0 : Img := { mode := "RGB", width := width, height := height,
                      bg := PColor.named "white", ops := [] }
  let img1 :=
    if template = "corporate" then _apply_corporate_template img0 width height
    else if template = "modern" then _apply_modern_template img0 width height
    else if template = "minimalist" then _apply_minimalist_template img0 width height
    else _apply_default_template img0 width height
  let img2 := match company_logo with
    | some logo => _add_company_logo env img1 logo width height
    | none => img1
  _add_slide_content env img2 slide width height

/-- `_create_enhanced_slide`: the base stages above, then the slide
metadata (which raises iff `total_slides = 0`), and the visual
effects. -/
def _create_enhanced_slide (env : RenderEnv) (config : VideoConfig) (slide : Slide)
    (template : String) (slide_num total_slides : Nat) (company_logo : Option Img) :
    Except Unit Img :=
  match _add_slide_metadata env
      (_create_enhanced_slide_base env config slide template company_logo)
      slide_num total_slides config.resolution.1 config.resolution.2 with
  | Except.error e => Except.error e
  | Except.ok img4 => Except.ok (_apply_visual_effects env img4 template)

/-- The palette used by `generate_initials_logo`. -/
def logoColors : List String :=
  ["#00F260", "#0575E6", "#F2C94C", "#f2709c", "#4facfe", "#6A82FB", "#FC466B", "#38f9d7"]

/-- `generate_initials_logo`: a 200 by 200 transparent logo holding a
colored disc (color index = Python string hash of the company name
modulo the palette size), a white ring, and the up-to-two company
initials drawn with a shadow, centered from the measured text box. -/
def generate_initials_logo (env : RenderEnv) (company_name : String) : Img :=
  let words := pySplitWs (((company_name.replace "Ltd" "").replace "Pvt" "").replace "Inc" "")
  let initials0 : String := ⟨(words.take 2).filterMap (fun w => w.data.head?.map Char.toUpper)⟩
  let initials := if initials0 = "" then "CO" else initials0
  let size : Nat := 200
  let color := PColor.named (logoColors.getD ((env.strHash company_name).emod 8).toNat "#00F260")
  let font :=
    if env.pathExists "arialbd.ttf" && !env.fontLoadFails "arialbd.ttf" then
      PFont.truetype "arialbd.ttf" 80
    else if env.pathExists "/System/Library/Fonts/Supplemental/Arial Bold.ttf" &&
        !env.fontLoadFails "/System/Library/Fonts/Supplemental/Arial Bold.ttf" then
      PFont.truetype "/System/Library/Fonts/Supplemental/Arial Bold.ttf" 80
    else PFont.defaultFont
  let bbox := env.textBBox font initials
  let text_width := bbox.2.2.1 - bbox.1
  let text_height := bbox.2.2.2 - bbox.2.1
  let x := Int.fdiv ((size : Int) - text_width) 2
  let y := Int.fdiv ((size : Int) - text_height) 2 - 10
  { mode := "RGBA", width := size, height := size, bg := PColor.rgba 0 0 0 0,
    ops := [DrawOp.ellipse 10 10 ((size : Int) - 10) ((size : Int) - 10) color,
            DrawOp.ellipseOutline 5 5 ((size : Int) - 5) ((size : Int) - 5)
              (PColor.named "white") 5,
            DrawOp.text (x + 2) (y + 2) initials font (PColor.rgba 0 0 0 76),
            DrawOp.text x y initials font (PColor.named "white")] }

/-- The `SlideMetrics` dataclass: counters tracked during one run. -/
structure SlideMetrics where
  total_slides : Nat := 0
  processed_slides : Nat := 0
  failed_slides : Nat := 0
  total_duration : ℚ := 0
  file_size_mb : ℚ := 0
  generation_time : ℚ := 0
deriving DecidableEq

/-- One per-slide video clip handed to concatenation: the rendered slide
image, the computed duration, and whether a narration track is
attached.  The symmetric fades of configured duration are applied to
every built clip. -/
structure Clip where
  image : Img
  duration : ℚ
  hasAudio : Bool
deriving DecidableEq

/-- Outcome of narration processing for one slide, as observed by
`_create_slide_video_clip`: `noAudio` when `_process_slide_audio`
returned `None` (its own failures are caught inside it) or the file is
missing; `loadFail` when the audio file was produced but building the
audio-attached clip raised inside the inner `try`; `ok d` when the
narration audio clip was created with duration `d` seconds. -/
inductive AudioOutcome
  | noAudio
  | loadFail
  | ok (d : ℚ)
deriving DecidableEq

/-- Injected outcomes of the external calls made while building one
slide's clip: whether saving the rendered image raises, the narration
outcome, whether the silent-fallback construction inside the inner
`except` raises, and whether the silent-clip construction of the
no-narration branch raises. -/
structure ClipOracle where
  saveFails : Bool := false
  audio : AudioOutcome := AudioOutcome.noAudio
  fallbackFails : Bool := false
  silentFails : Bool := false
deriving DecidableEq

/-- A filesystem artifact created during one run: a rendered slide
image, a narration audio file (both registered in `temp_files`), or the
output video written by the exporter (never registered). -/
inductive Artifact
  | slideImage (i : Nat)
  | narrationAudio (i : Nat)
  | outputVideo
deriving DecidableEq

/-- Mutable state of one `AdvancedVideoGenerator` run: the metrics
record, the `temp_files` registry, and the filesystem contents (paths
created and not yet deleted). -/
structure GenState where
  metrics : SlideMetrics
  temp_files : List Artifact
  fs : List Artifact
deriving DecidableEq

/-- Create an artifact on disk and register it in `temp_files`. -/
def addTemp (s : GenState) (a : Artifact) : GenState :=
  { s with temp_files := s.temp_files ++ [a], fs := s.fs ++ [a] }

/-- Record one failed slide (`self.metrics.failed_slides += 1`). -/
def markFailed (s : GenState) : GenState :=
  { s with metrics := { s.metrics with failed_slides := s.metrics.failed_slides + 1 } }

/-- Record one processed slide and its accumulated duration. -/
def markProcessed (s : GenState) (duration : ℚ) : GenState :=
  { s with metrics := { s.metrics with
      processed_slides := s.metrics.processed_slides + 1,
      total_duration := s.metrics.total_duration + duration } }

/-- `_create_slide_video_clip`: render the slide image, save it to a
registered temp file, process narration audio, and build the clip.
With narration of duration `d` the clip duration is
`max(min(d + 1.0, max_slide_duration), min_slide_duration)`; an
exception while building the audio-attached clip falls back to a silent
clip of `min_slide_duration`; no narration gives a silent clip of
`min_slide_duration`.  Any exception outside the inner audio `try`
(render error, image save, fallback or silent construction) is caught
by the outer handler, increments `failed_slides`, and returns `none`. -/
def _create_slide_video_clip (env : RenderEnv) (config : VideoConfig) (o : ClipOracle)
    (slide : Slide) (template : String) (slide_num total_slides : Nat)
    (company_logo : Option Img) (s : GenState) : Option Clip × GenState :=
  match _create_enhanced_slide env config slide template slide_num total_slides company_logo with
  | Except.error _ => (none, markFailed s)
  | Except.ok slide_img =>
    if o.saveFails then (none, markFailed s)
    else
      let s1 := addTemp s (Artifact.slideImage slide_num)
      match o.audio with
      | AudioOutcome.ok d =>
        let s2 := addTemp s1 (Artifact.narrationAudio slide_num)
        let duration := max (min (d + 1) config.max_slide_duration) config.min_slide_duration
        (some { image := slide_img, duration := duration, hasAudio := true },
         markProcessed s2 duration)
      | AudioOutcome.loadFail =>
        let s2 := addTemp s1 (Artifact.narrationAudio slide_num)
        if o.fallbackFails then (none, markFailed s2)
        else
          let duration := config.min_slide_duration
          (some { image := slide_img, duration := duration, hasAudio := false },
           markProcessed s2 duration)
      | AudioOutcome.noAudio =>
        if o.silentFails then (none, markFailed s1)
        else
          let duration := config.min_slide_duration
          (some { image := slide_img, duration := duration, hasAudio := false },
           markProcessed s1 duration)

/-- The sequential branch of `create_professional_placement_video`
(`for i, slide in enumerate(slides)`): the slides at the given indices
are processed one after the other, on the calling thread; a builder
returning `None` contributes no clip. -/
def processSeqAux (env : RenderEnv) (config : VideoConfig) (template : String)
    (company_logo : Option Img) (slides : List Slide) (oracles : List ClipOracle) :
    List Nat → GenState → List Clip × GenState
  | [], s => ([], s)
  | i :: rest, s =>
    let slide := slides.getD i { title := "", content := "" }
    let o := oracles.getD i {}
    let r := _create_slide_video_clip env config o slide template (i + 1) slides.length
      company_logo s
    let rest' := processSeqAux env config template company_logo slides oracles rest r.2
    match r.1 with
    | some clip => (clip :: rest'.1, rest'.2)
    | none => rest'

/-- The collection loop of the parallel branch: futures complete in the
order given by `completion`; each completed clip is tagged with its
submission index; builders returning `None` contribute nothing. -/
def processParAux (env : RenderEnv) (config : VideoConfig) (template : String)
    (company_logo : Option Img) (slides : List Slide) (oracles : List ClipOracle) :
    List Nat → GenState → List (Nat × Clip) × GenState
  | [], s => ([], s)
  | i :: rest, s =>
    let slide := slides.getD i { title := "", content := "" }
    let o := oracles.getD i {}
    let r := _create_slide_video_clip env config o slide template (i + 1) slides.length
      company_logo s
    let rest' := processParAux env config template company_logo slides oracles rest r.2
    match r.1 with
    | some clip => ((i, clip) :: rest'.1, rest'.2)
    | none => rest'

/-- `video_clips.sort(key=lambda x: x[0])`: re-sort the collected
(index, clip) pairs by original slide index. -/
def sortClips (l : List (Nat × Clip)) : List (Nat × Clip) :=
  l.insertionSort (fun a b => a.1 ≤ b.1)

/-- `_cleanup_temp_files`: best-effort deletion of every registered
temp file, then clearing of the registry. -/
def _cleanup_temp_files (s : GenState) : GenState :=
  { s with fs := s.fs.filter (fun a => a ∉ s.temp_files), temp_files := [] }

/-- The observable outcome of one `create_professional_placement_video`
run: the returned path (if any), whether the exporter (concatenation
plus `write_videofile`) was invoked, the worker-pool width when the
parallel branch was taken, the ordered clip list passed (or that would
be passed) to concatenation, the final filesystem contents, and the
final metrics. -/
structure RunResult where
  output : Option Artifact
  exporterInvoked : Bool
  poolWidth : Option Nat
  clips : List Clip
  fs : List Artifact
  metrics : SlideMetrics
deriving DecidableEq

/-- `create_professional_placement_video`: an empty slide list fails
immediately, before touching the filesystem; otherwise the slides are
processed in parallel (bounded pool of width `min(4, len(slides))`,
collected results re-sorted by submission index) when
`parallel_processing` holds and there are more than 3 slides, else
sequentially in input order; zero successful clips abort before the
exporter is invoked; otherwise the exporter writes the (unregistered)
output video, and on an export exception the registered temp files are
cleaned up and `None` is returned. -/
def create_professional_placement_video (env : RenderEnv) (config : VideoConfig)
    (slides : List Slide) (template : String) (company_logo : Option Img)
    (oracles : List ClipOracle) (completion : List Nat) (parallel_processing : Bool)
    (exportFails : Bool) (wallClock fileSizeMB : ℚ) : RunResult :=
  if slides.isEmpty then
    { output := none, exporterInvoked := false, poolWidth := none, clips := [],
      fs := [], metrics := {} }
  else
    let s0 : GenState := { metrics := { total_slides := slides.length },
                           temp_files := [], fs := [] }
    let step : List Clip × GenState × Option Nat :=
      if parallel_processing ∧ 3 < slides.length then
        let r := processParAux env config template company_logo slides oracles completion s0
        ((sortClips r.1).map Prod.snd, r.2, some (min 4 slides.length))
      else
        let r := processSeqAux env config template company_logo slides oracles
          (List.range slides.length) s0
        (r.1, r.2, none)
    let video_clips := step.1
    let s1 := step.2.1
    let pw := step.2.2
    if video_clips.isEmpty then
      { output := none, exporterInvoked := false, poolWidth := pw, clips := video_clips,
        fs := s1.fs, metrics := s1.metrics }
    else
      let s2 := { s1 with fs := s1.fs ++ [Artifact.outputVideo] }
      if exportFails then
        let s3 := _cleanup_temp_files s2
        { output := none, exporterInvoked := true, poolWidth := pw, clips := video_clips,
          fs := s3.fs, metrics := s3.metrics }
      else
        let m1 := { s2.metrics with
                    generation_time := wallClock
                    file_size_mb := fileSizeMB }
        let s3 := _cleanup_temp_files { s2 with metrics := m1 }
        { output := some Artifact.outputVideo, exporterInvoked := true, poolWidth := pw,
          clips := video_clips, fs := s3.fs, metrics := s3.metrics }

/-! Lemmas about whitespace splitting, joining, and text wrapping. -/

/-- A word produced by Python `split()`: non-empty and free of
whitespace characters. -/
def goodWord (w : String) : Prop :=
  w.data ≠ [] ∧ ∀ c ∈ w.data, c.isWhitespace = false

/-- Character-level `' '.join`. -/
def charJoin : List (List Char) → List Char
  | [] => []
  | [w] => w
  | w :: ws => w ++ ' ' :: charJoin ws

/-! Structural lemmas about the renderer: every stage only appends
drawing commands and preserves the canvas geometry. -/

/-- Image `b` extends image `a`: same canvas, more drawing commands. -/
def opsExtends (a b : Img) : Prop :=
  (∃ l, b.ops = a.ops ++ l) ∧ b.width = a.width ∧ b.height = a.height ∧
    b.mode = a.mode ∧ b.bg = a.bg

/-! Characterisation of the clip builder, branch by branch. -/

/-- A blank generator state. -/
def initState : GenState :=
  { metrics := {}, temp_files := [], fs := [] }

/-- The clip the builder produces for submission index `i` (`slide_num`
is `i + 1`); by `clip_fst_state` below this does not depend on the
generator state the builder runs in. -/
def builderClip (env : RenderEnv) (config : VideoConfig) (slides : List Slide)
    (oracles : List ClipOracle) (template : String) (company_logo : Option Img)
    (i : Nat) : Option Clip :=
  (_create_slide_video_clip env config (oracles.getD i {})
    (slides.getD i { title := "", content := "" }) template (i + 1) slides.length
    company_logo initState).1

/-! The re-sort by original slide index recovers input order. -/

instance : IsTotal (Nat × Clip) (fun a b => a.1 ≤ b.1) :=
  ⟨fun a b => Nat.le_total a.1 b.1⟩

instance : IsTrans (Nat × Clip) (fun a b => a.1 ≤ b.1) :=
  ⟨fun _ _ _ h1 h2 => le_trans h1 h2⟩

instance : IsAntisymm (Nat × Clip) (fun a b => a.1 < b.1) :=
  ⟨fun _ _ h1 h2 => absurd (h1.trans h2) (lt_irrefl _)⟩

instance : IsIrrefl (Nat × Clip) (fun a b => a.1 < b.1) :=
  ⟨fun a => lt_irrefl a.1⟩

/-! Concrete fixtures for witnesses and counterexamples. -/

/-- A concrete rendering environment: no font files present, zero-width
text boxes, identity thumbnail scaling, a fixed string hash, no injected
failures, and a zero randomness stream. -/
def envA : RenderEnv :=
  { pathExists := fun _ => false, fontLoadFails := fun _ => false,
    textBBox := fun _ _ => (0, 0, 0, 0), thumbFit := fun wh _ => wh,
    strHash := fun _ => 7, logoPasteFails := false, effectsFail := false,
    rand := fun _ => 0 }

/-- A small concrete configuration so concrete runs evaluate quickly. -/
def cfgA : VideoConfig := { resolution := (200, 10) }

/-- A concrete slide with a lower-case title and empty content. -/
def slideA : Slide := { title := "acme", content := "" }

/-- Four concrete slides for the parallel-branch witnesses. -/
def slides4 : List Slide :=
  [{ title := "s1", content := "" }, { title := "s2", content := "" },
   { title := "s3", content := "" }, { title := "s4", content := "" }]

/-- Four all-success oracles (no narration). -/
def oracles4 : List ClipOracle := [{}, {}, {}, {}]

/-- The text strings drawn on an image. -/
def drawnStrings (img : Img) : List String :=
  img.ops.filterMap (fun op => match op with
    | DrawOp.text _ _ s _ _ => some s
    | _ => none)

/-- The text strings drawn by a render result (none on error). -/
def renderStrings (r : Except Unit Img) : List String :=
  match r with
  | Except.ok img => drawnStrings img
  | Except.error _ => []

lemma wsSplitAux_word_append (w : List Char) (hw : ∀ c ∈ w, c.isWhitespace = false) :
    ∀ (t acc : List Char), wsSplitAux (w ++ t) acc = wsSplitAux t (w.reverse ++ acc) := by
  induction w with
  | nil => intro t acc; simp
  | cons c cs ih =>
    intro t acc
    have hc : c.isWhitespace = false := hw c (by simp)
    show wsSplitAux (c :: (cs ++ t)) acc = _
    rw [wsSplitAux]
    simp only [hc, Bool.false_eq_true, if_false]
    rw [ih (fun d hd => hw d (by simp [hd])) t (c :: acc)]
    simp

lemma wsSplit_word_append (w t : List Char) (hne : w ≠ [])
    (hw : ∀ c ∈ w, c.isWhitespace = false)
    (ht : t = [] ∨ ∃ c t', t = c :: t' ∧ c.isWhitespace = true) :
    wsSplit (w ++ t) = w :: wsSplit t := by
  unfold wsSplit
  rw [wsSplitAux_word_append w hw t []]
  rcases ht with rfl | ⟨c, t', rfl, hws⟩
  · rw [wsSplitAux]
    simp [hne, wsSplitAux]
  · rw [wsSplitAux, wsSplitAux]
    simp [hne, hws]

lemma joinSpace_data (ws : List String) :
    (joinSpace ws).data = charJoin (ws.map String.data) := by
  match ws with
  | [] => rfl
  | [w] => rfl
  | w :: w' :: ws =>
    have hd : (w ++ " " ++ joinSpace (w' :: ws)).data
        = (w.data ++ [' ']) ++ (joinSpace (w' :: ws)).data := rfl
    show (w ++ " " ++ joinSpace (w' :: ws)).data = _
    rw [hd, joinSpace_data (w' :: ws)]
    show _ = w.data ++ ' ' :: charJoin ((w' :: ws).map String.data)
    simp

lemma wsSplit_charJoin (ws : List (List Char))
    (h : ∀ w ∈ ws, w ≠ [] ∧ ∀ c ∈ w, c.isWhitespace = false) :
    wsSplit (charJoin ws) = ws := by
  match ws with
  | [] => rfl
  | [w] =>
    have hw := h w (by simp)
    have h1 : wsSplit (w ++ []) = w :: wsSplit [] :=
      wsSplit_word_append w [] hw.1 hw.2 (Or.inl rfl)
    simpa [wsSplit, wsSplitAux] using h1
  | w :: w' :: ws =>
    have hw := h w (by simp)
    have hrest : wsSplit (charJoin (w' :: ws)) = w' :: ws :=
      wsSplit_charJoin (w' :: ws) (fun u hu => h u (by simp [hu]))
    show wsSplit (w ++ ' ' :: charJoin (w' :: ws)) = _
    rw [wsSplit_word_append w (' ' :: charJoin (w' :: ws)) hw.1 hw.2
      (Or.inr ⟨' ', charJoin (w' :: ws), rfl, by decide⟩)]
    unfold wsSplit at hrest ⊢
    rw [wsSplitAux]
    simpa using hrest

lemma pySplitWs_joinSpace (ws : List String) (h : ∀ w ∈ ws, goodWord w) :
    pySplitWs (joinSpace ws) = ws := by
  unfold pySplitWs
  rw [joinSpace_data, wsSplit_charJoin (ws.map String.data)]
  · rw [List.map_map]
    exact List.map_id'' (fun w => rfl) ws
  · intro w hw
    rcases List.mem_map.mp hw with ⟨u, hu, rfl⟩
    exact h u hu

lemma goodWord_wsSplitAux (l : List Char) :
    ∀ acc : List Char, (∀ c ∈ acc, c.isWhitespace = false) →
      ∀ w ∈ wsSplitAux l acc, w ≠ [] ∧ ∀ c ∈ w, c.isWhitespace = false := by
  induction l with
  | nil =>
    intro acc hacc w hw
    rw [wsSplitAux] at hw
    by_cases hne : acc = []
    · simp [hne] at hw
    · simp only [hne, if_false] at hw
      rcases List.mem_singleton.mp hw with rfl
      refine ⟨by simpa using hne, ?_⟩
      intro c hc
      exact hacc c (List.mem_reverse.mp hc)
  | cons c cs ih =>
    intro acc hacc w hw
    rw [wsSplitAux] at hw
    by_cases hws : c.isWhitespace
    · simp only [hws, if_true] at hw
      by_cases hne : acc = []
      · simp only [hne, if_true] at hw
        exact ih [] (by simp) w hw
      · simp only [hne, if_false] at hw
        rcases List.mem_cons.mp hw with rfl | hw'
        · refine ⟨by simpa using hne, ?_⟩
          intro d hd
          exact hacc d (List.mem_reverse.mp hd)
        · exact ih [] (by simp) w hw'
    · simp only [hws, if_false] at hw
      refine ih (c :: acc) ?_ w hw
      intro d hd
      rcases List.mem_cons.mp hd with rfl | hd'
      · simpa using hws
      · exact hacc d hd'

lemma goodWord_pySplitWs (s : String) : ∀ w ∈ pySplitWs s, goodWord w := by
  intro w hw
  rcases List.mem_map.mp hw with ⟨u, hu, rfl⟩
  exact goodWord_wsSplitAux s.data [] (by simp) u hu

lemma wrapLoop_flatMap (env : RenderEnv) (font : PFont) (max_width : Int) :
    ∀ (words current : List String), (∀ w ∈ current ++ words, goodWord w) →
      (wrapLoop env font max_width words current).flatMap pySplitWs = current ++ words := by
  intro words
  induction words with
  | nil =>
    intro current h
    rw [wrapLoop]
    by_cases hc : current.isEmpty
    · rw [if_pos hc]
      simp [List.isEmpty_iff.mp hc]
    · rw [if_neg hc]
      have hcur : pySplitWs (joinSpace current) = current :=
        pySplitWs_joinSpace current (fun w hw => h w (by simp [hw]))
      simp [hcur]
  | cons w ws ih =>
    intro current h
    have hmemw : goodWord w := h w (by simp)
    have hmemws : ∀ u ∈ ws, goodWord u := fun u hu => h u (by simp [hu])
    have hmemcur : ∀ u ∈ current, goodWord u := fun u hu => h u (by simp [hu])
    rw [wrapLoop]
    by_cases hfit : bboxW env font (joinSpace (current ++ [w])) ≤ max_width
    · rw [if_pos hfit]
      have hgood : ∀ u ∈ (current ++ [w]) ++ ws, goodWord u := by
        intro u hu
        rcases List.mem_append.mp hu with hu' | hu'
        · rcases List.mem_append.mp hu' with hu'' | hu''
          · exact hmemcur u hu''
          · rcases List.mem_singleton.mp hu'' with rfl
            exact hmemw
        · exact hmemws u hu'
      have := ih (current ++ [w]) hgood
      simpa [List.append_assoc] using this
    · rw [if_neg hfit]
      by_cases hcur : current.isEmpty
      · have hce : current = [] := List.isEmpty_iff.mp hcur
        subst hce
        simp only [hcur, Bool.not_true, Bool.false_eq_true, if_false]
        have hw1 : pySplitWs w = [w] :=
          pySplitWs_joinSpace [w] (fun u hu => by
            rcases List.mem_singleton.mp hu with rfl
            exact hmemw)
        have hrec := ih [] (fun u hu => hmemws u (by simpa using hu))
        simp only [List.flatMap_cons, hw1, hrec]
        simp
      · have hc' : current.isEmpty = false := by simpa using hcur
        simp only [hc', Bool.not_false, if_true]
        have hjoin : pySplitWs (joinSpace current) = current :=
          pySplitWs_joinSpace current hmemcur
        have hgood : ∀ u ∈ [w] ++ ws, goodWord u := by
          intro u hu
          rcases List.mem_append.mp hu with hu' | hu'
          · rcases List.mem_singleton.mp hu' with rfl
            exact hmemw
          · exact hmemws u hu'
        have hrec := ih [w] hgood
        simp only [List.flatMap_cons, hjoin, hrec]
        simp

/-! Rendering is independent of the ambient randomness source. -/

lemma getFontLoop_rand (env : RenderEnv) (r : Nat → Nat) (base_size : Nat) :
    ∀ l : List String, getFontLoop { env with rand := r } base_size l
      = getFontLoop env base_size l := by
  intro l
  induction l with
  | nil => rfl
  | cons p ps ih => simp only [getFontLoop, ih]

lemma _get_font_rand (env : RenderEnv) (r : Nat → Nat) (font_type : String) (width : Nat) :
    _get_font { env with rand := r } font_type width = _get_font env font_type width := by
  unfold _get_font
  exact getFontLoop_rand env r _ font_paths

lemma bboxW_rand (env : RenderEnv) (r : Nat → Nat) (f : PFont) (s : String) :
    bboxW { env with rand := r } f s = bboxW env f s := rfl

lemma _draw_text_with_shadow_rand (env : RenderEnv) (r : Nat → Nat) (img : Img)
    (text : String) (font : PFont) (width : Nat) (y : Int) (align : String)
    (tc sc : PColor) :
    _draw_text_with_shadow { env with rand := r } img text font width y align tc sc
      = _draw_text_with_shadow env img text font width y align tc sc := rfl

lemma wrapLoop_rand (env : RenderEnv) (r : Nat → Nat) (font : PFont) (max_width : Int) :
    ∀ (words current : List String),
      wrapLoop { env with rand := r } font max_width words current
        = wrapLoop env font max_width words current := by
  intro words
  induction words with
  | nil => intro current; rfl
  | cons w ws ih =>
    intro current
    rw [wrapLoop, wrapLoop]
    simp only [bboxW_rand, ih]

lemma _wrap_text_rand (env : RenderEnv) (r : Nat → Nat) (text : String) (font : PFont)
    (max_width : Int) :
    _wrap_text { env with rand := r } text font max_width
      = _wrap_text env text font max_width := by
  unfold _wrap_text
  exact wrapLoop_rand env r font max_width (pySplitWs text) []

lemma drawContentLines_rand (env : RenderEnv) (r : Nat → Nat) (font : PFont)
    (width height : Nat) (content_y : Int) :
    ∀ (lines : List (Nat × String)) (img : Img),
      drawContentLines { env with rand := r } font width height content_y img lines
        = drawContentLines env font width height content_y img lines := by
  intro lines
  induction lines with
  | nil => intro img; rfl
  | cons p rest ih =>
    intro img
    rw [drawContentLines, drawContentLines]
    rw [ih, _draw_text_with_shadow_rand]

lemma _add_slide_content_rand (env : RenderEnv) (r : Nat → Nat) (img : Img) (slide : Slide)
    (width height : Nat) :
    _add_slide_content { env with rand := r } img slide width height
      = _add_slide_content env img slide width height := by
  unfold _add_slide_content
  simp only [_get_font_rand, _draw_text_with_shadow_rand, _wrap_text_rand,
    drawContentLines_rand]

lemma _add_slide_metadata_rand (env : RenderEnv) (r : Nat → Nat) (img : Img)
    (slide_num total_slides width height : Nat) :
    _add_slide_metadata { env with rand := r } img slide_num total_slides width height
      = _add_slide_metadata env img slide_num total_slides width height := by
  unfold _add_slide_metadata
  simp only [_get_font_rand]

lemma _create_enhanced_slide_base_rand (env : RenderEnv) (r : Nat → Nat)
    (config : VideoConfig) (slide : Slide) (template : String)
    (company_logo : Option Img) :
    _create_enhanced_slide_base { env with rand := r } config slide template company_logo
      = _create_enhanced_slide_base env config slide template company_logo := by
  unfold _create_enhanced_slide_base _add_company_logo
  simp only [_add_slide_content_rand]

lemma _create_enhanced_slide_rand (env : RenderEnv) (r : Nat → Nat) (config : VideoConfig)
    (slide : Slide) (template : String) (slide_num total_slides : Nat)
    (company_logo : Option Img) :
    _create_enhanced_slide { env with rand := r } config slide template slide_num
        total_slides company_logo
      = _create_enhanced_slide env config slide template slide_num total_slides
        company_logo := by
  unfold _create_enhanced_slide _apply_visual_effects
  simp only [_create_enhanced_slide_base_rand, _add_slide_metadata_rand]

lemma generate_initials_logo_rand (env : RenderEnv) (r : Nat → Nat) (company_name : String) :
    generate_initials_logo { env with rand := r } company_name
      = generate_initials_logo env company_name := rfl

lemma opsExtends_refl (a : Img) : opsExtends a a :=
  ⟨⟨[], by simp⟩, rfl, rfl, rfl, rfl⟩

lemma opsExtends_trans {a b c : Img} (h1 : opsExtends a b) (h2 : opsExtends b c) :
    opsExtends a c := by
  obtain ⟨⟨l1, hl1⟩, hw1, hh1, hm1, hb1⟩ := h1
  obtain ⟨⟨l2, hl2⟩, hw2, hh2, hm2, hb2⟩ := h2
  exact ⟨⟨l1 ++ l2, by rw [hl2, hl1, List.append_assoc]⟩, hw2.trans hw1, hh2.trans hh1,
    hm2.trans hm1, hb2.trans hb1⟩

lemma opsExtends_drawOps (a : Img) (l : List DrawOp) : opsExtends a (drawOps a l) :=
  ⟨⟨l, rfl⟩, rfl, rfl, rfl, rfl⟩

lemma mem_of_opsExtends {a b : Img} (h : opsExtends a b) {op : DrawOp} (hop : op ∈ a.ops) :
    op ∈ b.ops := by
  obtain ⟨⟨l, hl⟩, -⟩ := h
  rw [hl]
  exact List.mem_append_left l hop

lemma opsExtends_corporate (img : Img) (w h : Nat) :
    opsExtends img (_apply_corporate_template img w h) := by
  unfold _apply_corporate_template
  exact opsExtends_drawOps _ _

lemma opsExtends_modern (img : Img) (w h : Nat) :
    opsExtends img (_apply_modern_template img w h) := by
  unfold _apply_modern_template
  exact opsExtends_drawOps _ _

lemma opsExtends_minimalist (img : Img) (w h : Nat) :
    opsExtends img (_apply_minimalist_template img w h) := by
  unfold _apply_minimalist_template
  exact opsExtends_drawOps _ _

lemma opsExtends_defaultTemplate (img : Img) (w h : Nat) :
    opsExtends img (_apply_default_template img w h) := by
  unfold _apply_default_template
  exact opsExtends_drawOps _ _

lemma opsExtends_logo (env : RenderEnv) (img logo : Img) (w h : Nat) :
    opsExtends img (_add_company_logo env img logo w h) := by
  unfold _add_company_logo
  by_cases hf : env.logoPasteFails
  · simp only [hf, if_true]
    exact opsExtends_refl img
  · simp only [hf, Bool.false_eq_true, if_false]
    exact opsExtends_drawOps _ _

lemma _draw_text_with_shadow_ops (env : RenderEnv) (img : Img) (text : String)
    (font : PFont) (width : Nat) (y : Int) (align : String) (tc sc : PColor) :
    _draw_text_with_shadow env img text font width y align tc sc
      = drawOps img
        [DrawOp.text
          ((if align = "center" then Int.fdiv ((width : Int) - bboxW env font text) 2
            else if align = "right" then (width : Int) - bboxW env font text - 50
            else 50) + 3) (y + 3) text font (colorRGB3 sc),
         DrawOp.text
          (if align = "center" then Int.fdiv ((width : Int) - bboxW env font text) 2
           else if align = "right" then (width : Int) - bboxW env font text - 50
           else 50) y text font tc] := rfl

lemma opsExtends_shadowText (env : RenderEnv) (img : Img) (text : String)
    (font : PFont) (width : Nat) (y : Int) (align : String) (tc sc : PColor) :
    opsExtends img (_draw_text_with_shadow env img text font width y align tc sc) := by
  rw [_draw_text_with_shadow_ops]
  exact opsExtends_drawOps _ _

lemma opsExtends_contentLines (env : RenderEnv) (font : PFont) (width height : Nat)
    (content_y : Int) :
    ∀ (lines : List (Nat × String)) (img : Img),
      opsExtends img (drawContentLines env font width height content_y img lines) := by
  intro lines
  induction lines with
  | nil => intro img; exact opsExtends_refl img
  | cons p rest ih =>
    intro img
    rw [drawContentLines]
    refine opsExtends_trans ?_ (ih _)
    by_cases hy : content_y + (p.1 : Int) * 80 < (height : Int) - 100
    · simp only [hy, if_true]
      exact opsExtends_shadowText env img p.2 font width _ "center" _ _
    · simp only [hy, if_false]
      exact opsExtends_refl img

lemma opsExtends_content (env : RenderEnv) (img : Img) (slide : Slide) (width height : Nat) :
    opsExtends img (_add_slide_content env img slide width height) := by
  unfold _add_slide_content
  simp only []
  split_ifs with ht hc hc <;>
  first
    | exact opsExtends_trans (opsExtends_shadowText env img _ _ width _ "center" _ _)
        (opsExtends_contentLines env _ width height _ _ _)
    | exact opsExtends_shadowText env img _ _ width _ "center" _ _
    | exact opsExtends_contentLines env _ width height _ _ _
    | exact opsExtends_refl img

lemma _add_slide_metadata_ok (env : RenderEnv) (img : Img) (slide_num total_slides : Nat)
    (width height : Nat) (h : total_slides ≠ 0) :
    ∃ l, _add_slide_metadata env img slide_num total_slides width height
      = Except.ok (drawOps img l) := by
  unfold _add_slide_metadata
  simp only [h, if_false]
  exact ⟨_, rfl⟩

lemma opsExtends_effects (env : RenderEnv) (img : Img) (template : String) :
    opsExtends img (_apply_visual_effects env img template) := by
  unfold _apply_visual_effects
  by_cases hf : env.effectsFail
  · simp only [hf, if_true]
    exact opsExtends_refl img
  · simp only [hf, Bool.false_eq_true, if_false]
    by_cases hm : template = "modern"
    · simp only [hm, if_true]
      exact opsExtends_trans (opsExtends_drawOps _ _) (opsExtends_drawOps _ _)
    · simp only [hm, if_false]
      exact opsExtends_drawOps _ _

lemma opsExtends_templateStage (img : Img) (template : String) (w h : Nat) :
    opsExtends img
      (if template = "corporate" then _apply_corporate_template img w h
       else if template = "modern" then _apply_modern_template img w h
       else if template = "minimalist" then _apply_minimalist_template img w h
       else _apply_default_template img w h) := by
  split_ifs <;>
  first
    | exact opsExtends_corporate img w h
    | exact opsExtends_modern img w h
    | exact opsExtends_minimalist img w h
    | exact opsExtends_defaultTemplate img w h

lemma opsExtends_base (env : RenderEnv) (config : VideoConfig) (slide : Slide)
    (template : String) (company_logo : Option Img) :
    opsExtends
      { mode := "RGB", width := config.resolution.1, height := config.resolution.2,
        bg := PColor.named "white", ops := [] }
      (_create_enhanced_slide_base env config slide template company_logo) := by
  unfold _create_enhanced_slide_base
  simp only []
  refine opsExtends_trans ?_ (opsExtends_content env _ slide _ _)
  cases company_logo with
  | none => exact opsExtends_templateStage _ template _ _
  | some lg =>
    exact opsExtends_trans (opsExtends_templateStage _ template _ _)
      (opsExtends_logo env _ lg _ _)

lemma title_mem_content (env : RenderEnv) (img : Img) (slide : Slide) (w h : Nat)
    (ht : pyStrip slide.title ≠ "") :
    DrawOp.text
        (Int.fdiv ((w : Int) - bboxW env (_get_font env "title" w) (pyStrip slide.title)) 2)
        ((h / 6 : Nat) : Int) (pyStrip slide.title) (_get_font env "title" w)
        (PColor.rgb 255 255 255)
      ∈ (_add_slide_content env img slide w h).ops := by
  unfold _add_slide_content
  simp only []
  rw [if_pos ht]
  have hmem : DrawOp.text
      (Int.fdiv ((w : Int) - bboxW env (_get_font env "title" w) (pyStrip slide.title)) 2)
      ((h / 6 : Nat) : Int) (pyStrip slide.title) (_get_font env "title" w)
      (PColor.rgb 255 255 255)
      ∈ (_draw_text_with_shadow env img (pyStrip slide.title) (_get_font env "title" w) w
        ((h / 6 : Nat) : Int) "center" (PColor.rgb 255 255 255)
        (PColor.rgba 0 0 0 128)).ops := by
    rw [_draw_text_with_shadow_ops]
    simp [drawOps]
  by_cases hc : pyStrip slide.content ≠ ""
  · rw [if_pos hc]
    exact mem_of_opsExtends (opsExtends_contentLines env _ w h _ _ _) hmem
  · rw [if_neg hc]
    exact hmem

lemma title_mem_base (env : RenderEnv) (config : VideoConfig) (slide : Slide)
    (template : String) (company_logo : Option Img) (ht : pyStrip slide.title ≠ "") :
    DrawOp.text
        (Int.fdiv ((config.resolution.1 : Int)
          - bboxW env (_get_font env "title" config.resolution.1) (pyStrip slide.title)) 2)
        ((config.resolution.2 / 6 : Nat) : Int) (pyStrip slide.title)
        (_get_font env "title" config.resolution.1) (PColor.rgb 255 255 255)
      ∈ (_create_enhanced_slide_base env config slide template company_logo).ops := by
  unfold _create_enhanced_slide_base
  simp only []
  exact title_mem_content env _ slide _ _ ht

lemma _create_enhanced_slide_spec (env : RenderEnv) (config : VideoConfig) (slide : Slide)
    (template : String) (slide_num total_slides : Nat) (company_logo : Option Img)
    (h : total_slides ≠ 0) :
    ∃ img, _create_enhanced_slide env config slide template slide_num total_slides
        company_logo = Except.ok img
      ∧ img.width = config.resolution.1 ∧ img.height = config.resolution.2
      ∧ img.mode = "RGB"
      ∧ opsExtends (_create_enhanced_slide_base env config slide template company_logo)
          img := by
  unfold _create_enhanced_slide
  obtain ⟨l, hl⟩ := _add_slide_metadata_ok env
    (_create_enhanced_slide_base env config slide template company_logo) slide_num
    total_slides config.resolution.1 config.resolution.2 h
  rw [hl]
  have hbase := opsExtends_base env config slide template company_logo
  have hext : opsExtends (_create_enhanced_slide_base env config slide template company_logo)
      (_apply_visual_effects env
        (drawOps (_create_enhanced_slide_base env config slide template company_logo) l)
        template) :=
    opsExtends_trans (opsExtends_drawOps _ _) (opsExtends_effects env _ template)
  have hall := opsExtends_trans hbase hext
  exact ⟨_, rfl, hall.2.1, hall.2.2.1, hall.2.2.2.1, hext⟩

lemma clip_fst_state (env : RenderEnv) (config : VideoConfig) (o : ClipOracle)
    (slide : Slide) (template : String) (n t : Nat) (logo : Option Img) (s s' : GenState) :
    (_create_slide_video_clip env config o slide template n t logo s).1
      = (_create_slide_video_clip env config o slide template n t logo s').1 := by
  unfold _create_slide_video_clip
  cases h : _create_enhanced_slide env config slide template n t logo with
  | error e => rfl
  | ok img =>
    by_cases hs : o.saveFails
    · simp [hs]
    · cases ha : o.audio with
      | ok d => simp [hs, ha]
      | loadFail => by_cases hfb : o.fallbackFails <;> simp [hs, ha, hfb]
      | noAudio => by_cases hsil : o.silentFails <;> simp [hs, ha, hsil]

lemma clip_branch_okAudio (env : RenderEnv) (config : VideoConfig) (o : ClipOracle)
    (slide : Slide) (template : String) (n t : Nat) (logo : Option Img) (s : GenState)
    (ht : t ≠ 0) (hs : o.saveFails = false) (d : ℚ) (ha : o.audio = AudioOutcome.ok d) :
    ∃ img, _create_enhanced_slide env config slide template n t logo = Except.ok img ∧
      _create_slide_video_clip env config o slide template n t logo s
        = (some { image := img
                  duration := max (min (d + 1) config.max_slide_duration)
                    config.min_slide_duration
                  hasAudio := true },
           markProcessed
             (addTemp (addTemp s (Artifact.slideImage n)) (Artifact.narrationAudio n))
             (max (min (d + 1) config.max_slide_duration) config.min_slide_duration)) := by
  obtain ⟨img, himg, -⟩ := _create_enhanced_slide_spec env config slide template n t logo ht
  refine ⟨img, himg, ?_⟩
  unfold _create_slide_video_clip
  rw [himg]
  simp only [hs, Bool.false_eq_true, if_false, ha]

lemma clip_branch_noAudio (env : RenderEnv) (config : VideoConfig) (o : ClipOracle)
    (slide : Slide) (template : String) (n t : Nat) (logo : Option Img) (s : GenState)
    (ht : t ≠ 0) (hs : o.saveFails = false) (ha : o.audio = AudioOutcome.noAudio)
    (hsil : o.silentFails = false) :
    ∃ img, _create_enhanced_slide env config slide template n t logo = Except.ok img ∧
      _create_slide_video_clip env config o slide template n t logo s
        = (some { image := img
                  duration := config.min_slide_duration
                  hasAudio := false },
           markProcessed (addTemp s (Artifact.slideImage n)) config.min_slide_duration) := by
  obtain ⟨img, himg, -⟩ := _create_enhanced_slide_spec env config slide template n t logo ht
  refine ⟨img, himg, ?_⟩
  unfold _create_slide_video_clip
  rw [himg]
  simp only [hs, Bool.false_eq_true, if_false, ha, hsil]

lemma clip_branch_loadFail_recovered (env : RenderEnv) (config : VideoConfig)
    (o : ClipOracle) (slide : Slide) (template : String) (n t : Nat) (logo : Option Img)
    (s : GenState) (ht : t ≠ 0) (hs : o.saveFails = false)
    (ha : o.audio = AudioOutcome.loadFail) (hfb : o.fallbackFails = false) :
    ∃ img, _create_enhanced_slide env config slide template n t logo = Except.ok img ∧
      _create_slide_video_clip env config o slide template n t logo s
        = (some { image := img
                  duration := config.min_slide_duration
                  hasAudio := false },
           markProcessed
             (addTemp (addTemp s (Artifact.slideImage n)) (Artifact.narrationAudio n))
             config.min_slide_duration) := by
  obtain ⟨img, himg, -⟩ := _create_enhanced_slide_spec env config slide template n t logo ht
  refine ⟨img, himg, ?_⟩
  unfold _create_slide_video_clip
  rw [himg]
  simp only [hs, Bool.false_eq_true, if_false, ha, hfb]

lemma clip_branch_saveFails (env : RenderEnv) (config : VideoConfig) (o : ClipOracle)
    (slide : Slide) (template : String) (n t : Nat) (logo : Option Img) (s : GenState)
    (ht : t ≠ 0) (hs : o.saveFails = true) :
    _create_slide_video_clip env config o slide template n t logo s
      = (none, markFailed s) := by
  obtain ⟨img, himg, -⟩ := _create_enhanced_slide_spec env config slide template n t logo ht
  unfold _create_slide_video_clip
  rw [himg]
  simp only [hs, if_true]

lemma clip_branch_loadFail_fallbackFails (env : RenderEnv) (config : VideoConfig)
    (o : ClipOracle) (slide : Slide) (template : String) (n t : Nat) (logo : Option Img)
    (s : GenState) (ht : t ≠ 0) (hs : o.saveFails = false)
    (ha : o.audio = AudioOutcome.loadFail) (hfb : o.fallbackFails = true) :
    _create_slide_video_clip env config o slide template n t logo s
      = (none, markFailed
          (addTemp (addTemp s (Artifact.slideImage n)) (Artifact.narrationAudio n))) := by
  obtain ⟨img, himg, -⟩ := _create_enhanced_slide_spec env config slide template n t logo ht
  unfold _create_slide_video_clip
  rw [himg]
  simp only [hs, Bool.false_eq_true, if_false, ha, hfb, if_true]

lemma clip_branch_silentFails (env : RenderEnv) (config : VideoConfig) (o : ClipOracle)
    (slide : Slide) (template : String) (n t : Nat) (logo : Option Img) (s : GenState)
    (ht : t ≠ 0) (hs : o.saveFails = false) (ha : o.audio = AudioOutcome.noAudio)
    (hsil : o.silentFails = true) :
    _create_slide_video_clip env config o slide template n t logo s
      = (none, markFailed (addTemp s (Artifact.slideImage n))) := by
  obtain ⟨img, himg, -⟩ := _create_enhanced_slide_spec env config slide template n t logo ht
  unfold _create_slide_video_clip
  rw [himg]
  simp only [hs, Bool.false_eq_true, if_false, ha, hsil, if_true]

/-! Characterisation of the sequential and parallel collection loops. -/

lemma processParAux_fst (env : RenderEnv) (config : VideoConfig) (template : String)
    (logo : Option Img) (slides : List Slide) (oracles : List ClipOracle) :
    ∀ (order : List Nat) (s : GenState),
      (processParAux env config template logo slides oracles order s).1
        = order.filterMap (fun i =>
            (builderClip env config slides oracles template logo i).map
              (fun c => (i, c))) := by
  intro order
  induction order with
  | nil => intro s; rfl
  | cons i rest ih =>
    intro s
    rw [processParAux]
    have hfst : (_create_slide_video_clip env config (oracles.getD i {})
        (slides.getD i { title := "", content := "" }) template (i + 1) slides.length
        logo s).1 = builderClip env config slides oracles template logo i :=
      clip_fst_state env config _ _ template _ _ logo s initState
    rw [List.filterMap_cons]
    cases hb : builderClip env config slides oracles template logo i with
    | none =>
      rw [hfst, hb]
      simpa using ih _
    | some c =>
      rw [hfst, hb]
      simpa using ih _

lemma processSeqAux_fst (env : RenderEnv) (config : VideoConfig) (template : String)
    (logo : Option Img) (slides : List Slide) (oracles : List ClipOracle) :
    ∀ (order : List Nat) (s : GenState),
      (processSeqAux env config template logo slides oracles order s).1
        = order.filterMap (builderClip env config slides oracles template logo) := by
  intro order
  induction order with
  | nil => intro s; rfl
  | cons i rest ih =>
    intro s
    rw [processSeqAux]
    have hfst : (_create_slide_video_clip env config (oracles.getD i {})
        (slides.getD i { title := "", content := "" }) template (i + 1) slides.length
        logo s).1 = builderClip env config slides oracles template logo i :=
      clip_fst_state env config _ _ template _ _ logo s initState
    rw [List.filterMap_cons]
    cases hb : builderClip env config slides oracles template logo i with
    | none =>
      rw [hfst, hb]
      simpa using ih _
    | some c =>
      rw [hfst, hb]
      simpa using ih _

/-! The registry and the filesystem evolve in lock-step: every artifact
a slide build creates is registered, and no build creates the output
video path. -/

lemma build_state_files (env : RenderEnv) (config : VideoConfig) (o : ClipOracle)
    (slide : Slide) (template : String) (n t : Nat) (logo : Option Img) (s : GenState) :
    ∃ l, (∀ a ∈ l, a ≠ Artifact.outputVideo) ∧
      (_create_slide_video_clip env config o slide template n t logo s).2.temp_files
        = s.temp_files ++ l ∧
      (_create_slide_video_clip env config o slide template n t logo s).2.fs
        = s.fs ++ l := by
  unfold _create_slide_video_clip
  cases h : _create_enhanced_slide env config slide template n t logo with
  | error e => exact ⟨[], by simp, by simp [markFailed], by simp [markFailed]⟩
  | ok img =>
    by_cases hs : o.saveFails
    · exact ⟨[], by simp, by simp [hs, markFailed], by simp [hs, markFailed]⟩
    · cases ha : o.audio with
      | ok d =>
        refine ⟨[Artifact.slideImage n, Artifact.narrationAudio n], by simp, ?_, ?_⟩ <;>
          simp [hs, ha, markProcessed, addTemp]
      | loadFail =>
        by_cases hfb : o.fallbackFails
        · refine ⟨[Artifact.slideImage n, Artifact.narrationAudio n], by simp, ?_, ?_⟩ <;>
            simp [hs, ha, hfb, markFailed, markProcessed, addTemp]
        · refine ⟨[Artifact.slideImage n, Artifact.narrationAudio n], by simp, ?_, ?_⟩ <;>
            simp [hs, ha, hfb, markFailed, markProcessed, addTemp]
      | noAudio =>
        by_cases hsil : o.silentFails
        · refine ⟨[Artifact.slideImage n], by simp, ?_, ?_⟩ <;>
            simp [hs, ha, hsil, markFailed, markProcessed, addTemp]
        · refine ⟨[Artifact.slideImage n], by simp, ?_, ?_⟩ <;>
            simp [hs, ha, hsil, markFailed, markProcessed, addTemp]

lemma processParAux_files (env : RenderEnv) (config : VideoConfig) (template : String)
    (logo : Option Img) (slides : List Slide) (oracles : List ClipOracle) :
    ∀ (order : List Nat) (s : GenState),
      ∃ l, (∀ a ∈ l, a ≠ Artifact.outputVideo) ∧
        (processParAux env config template logo slides oracles order s).2.temp_files
          = s.temp_files ++ l ∧
        (processParAux env config template logo slides oracles order s).2.fs
          = s.fs ++ l := by
  intro order
  induction order with
  | nil => intro s; exact ⟨[], by simp, by simp [processParAux], by simp [processParAux]⟩
  | cons i rest ih =>
    intro s
    rw [processParAux]
    obtain ⟨l1, hl1, ht1, hf1⟩ := build_state_files env config (oracles.getD i {})
      (slides.getD i { title := "", content := "" }) template (i + 1) slides.length logo s
    obtain ⟨l2, hl2, ht2, hf2⟩ := ih (_create_slide_video_clip env config (oracles.getD i {})
      (slides.getD i { title := "", content := "" }) template (i + 1) slides.length logo s).2
    refine ⟨l1 ++ l2, ?_, ?_, ?_⟩
    · intro a ha
      rcases List.mem_append.mp ha with h | h
      · exact hl1 a h
      · exact hl2 a h
    · cases hb : (_create_slide_video_clip env config (oracles.getD i {})
        (slides.getD i { title := "", content := "" }) template (i + 1) slides.length
        logo s).1 <;>
        dsimp only <;> rw [ht2, ht1, List.append_assoc]
    · cases hb : (_create_slide_video_clip env config (oracles.getD i {})
        (slides.getD i { title := "", content := "" }) template (i + 1) slides.length
        logo s).1 <;>
        dsimp only <;> rw [hf2, hf1, List.append_assoc]

lemma processSeqAux_files (env : RenderEnv) (config : VideoConfig) (template : String)
    (logo : Option Img) (slides : List Slide) (oracles : List ClipOracle) :
    ∀ (order : List Nat) (s : GenState),
      ∃ l, (∀ a ∈ l, a ≠ Artifact.outputVideo) ∧
        (processSeqAux env config template logo slides oracles order s).2.temp_files
          = s.temp_files ++ l ∧
        (processSeqAux env config template logo slides oracles order s).2.fs
          = s.fs ++ l := by
  intro order
  induction order with
  | nil => intro s; exact ⟨[], by simp, by simp [processSeqAux], by simp [processSeqAux]⟩
  | cons i rest ih =>
    intro s
    rw [processSeqAux]
    obtain ⟨l1, hl1, ht1, hf1⟩ := build_state_files env config (oracles.getD i {})
      (slides.getD i { title := "", content := "" }) template (i + 1) slides.length logo s
    obtain ⟨l2, hl2, ht2, hf2⟩ := ih (_create_slide_video_clip env config (oracles.getD i {})
      (slides.getD i { title := "", content := "" }) template (i + 1) slides.length logo s).2
    refine ⟨l1 ++ l2, ?_, ?_, ?_⟩
    · intro a ha
      rcases List.mem_append.mp ha with h | h
      · exact hl1 a h
      · exact hl2 a h
    · cases hb : (_create_slide_video_clip env config (oracles.getD i {})
        (slides.getD i { title := "", content := "" }) template (i + 1) slides.length
        logo s).1 <;>
        dsimp only <;> rw [ht2, ht1, List.append_assoc]
    · cases hb : (_create_slide_video_clip env config (oracles.getD i {})
        (slides.getD i { title := "", content := "" }) template (i + 1) slides.length
        logo s).1 <;>
        dsimp only <;> rw [hf2, hf1, List.append_assoc]

lemma sortClips_eq_of_perm (l m : List (Nat × Clip)) (hperm : l.Perm m)
    (hm : m.Pairwise (fun a b => a.1 < b.1)) : sortClips l = m := by
  unfold sortClips
  have hperm2 : (l.insertionSort (fun a b => a.1 ≤ b.1)).Perm m :=
    (List.perm_insertionSort _ l).trans hperm
  have hsorted : (l.insertionSort (fun a b => a.1 ≤ b.1)).Sorted (fun a b => a.1 ≤ b.1) :=
    List.sorted_insertionSort _ l
  have hmnodup : (m.map Prod.fst).Nodup := by
    have hlt : (m.map Prod.fst).Pairwise (· < ·) := List.pairwise_map.mpr hm
    exact hlt.nodup
  have hnodup : ((l.insertionSort (fun a b => a.1 ≤ b.1)).map Prod.fst).Nodup :=
    (hperm2.map Prod.fst).nodup_iff.mpr hmnodup
  have hne : (l.insertionSort (fun a b => a.1 ≤ b.1)).Pairwise (fun a b => a.1 ≠ b.1) :=
    List.pairwise_map.mp hnodup
  have hstrict : (l.insertionSort (fun a b => a.1 ≤ b.1)).Sorted (fun a b => a.1 < b.1) :=
    (hsorted.and hne).imp (fun h => lt_of_le_of_ne h.1 h.2)
  exact List.eq_of_perm_of_sorted hperm2 hstrict hm

lemma tagged_filterMap_pairwise (f : Nat → Option Clip) :
    ∀ l : List Nat, l.Pairwise (· < ·) →
      (l.filterMap (fun i => (f i).map (fun c => (i, c)))).Pairwise
        (fun a b => a.1 < b.1) := by
  intro l
  induction l with
  | nil => intro _; simp
  | cons i rest ih =>
    intro h
    have hpc := List.pairwise_cons.mp h
    rw [List.filterMap_cons]
    have htail := ih hpc.2
    cases hb : f i with
    | none => exact htail
    | some c =>
      refine List.Pairwise.cons ?_ htail
      intro p hp
      rcases List.mem_filterMap.mp hp with ⟨j, hj, hpj⟩
      cases hb2 : f j with
      | none => rw [hb2] at hpj; simp at hpj
      | some c2 =>
        rw [hb2] at hpj
        simp only [Option.map_some', Option.some_inj] at hpj
        rw [← hpj]
        simpa using hpc.1 j hj

lemma map_snd_tagged (f : Nat → Option Clip) (l : List Nat) :
    (l.filterMap (fun i => (f i).map (fun c => (i, c)))).map Prod.snd = l.filterMap f := by
  induction l with
  | nil => rfl
  | cons i rest ih =>
    rw [List.filterMap_cons, List.filterMap_cons]
    cases hb : f i <;> simp [hb, ih]

lemma parallel_clips_eq (env : RenderEnv) (config : VideoConfig) (template : String)
    (logo : Option Img) (slides : List Slide) (oracles : List ClipOracle)
    (order : List Nat) (s : GenState)
    (hperm : order.Perm (List.range slides.length)) :
    (sortClips (processParAux env config template logo slides oracles order s).1).map
        Prod.snd
      = (List.range slides.length).filterMap
          (builderClip env config slides oracles template logo) := by
  rw [processParAux_fst]
  have h1 : (order.filterMap (fun i =>
      (builderClip env config slides oracles template logo i).map (fun c => (i, c)))).Perm
      ((List.range slides.length).filterMap (fun i =>
        (builderClip env config slides oracles template logo i).map (fun c => (i, c)))) :=
    hperm.filterMap _
  rw [sortClips_eq_of_perm _ _ h1
    (tagged_filterMap_pairwise (builderClip env config slides oracles template logo)
      (List.range slides.length) (List.pairwise_lt_range slides.length))]
  exact map_snd_tagged _ _

/-! Run-level characterisations of `create_professional_placement_video`. -/

lemma run_empty (env : RenderEnv) (config : VideoConfig) (template : String)
    (logo : Option Img) (oracles : List ClipOracle) (completion : List Nat)
    (par ef : Bool) (wc fsz : ℚ) :
    create_professional_placement_video env config [] template logo oracles completion
        par ef wc fsz
      = { output := none, exporterInvoked := false, poolWidth := none, clips := [],
          fs := [], metrics := {} } := by
  unfold create_professional_placement_video
  rfl

lemma run_clips (env : RenderEnv) (config : VideoConfig) (slides : List Slide)
    (template : String) (logo : Option Img) (oracles : List ClipOracle)
    (completion : List Nat) (par ef : Bool) (wc fsz : ℚ) (hne : slides ≠ [])
    (hperm : completion.Perm (List.range slides.length)) :
    (create_professional_placement_video env config slides template logo oracles completion
        par ef wc fsz).clips
      = (List.range slides.length).filterMap
          (builderClip env config slides oracles template logo) := by
  unfold create_professional_placement_video
  rw [if_neg (by simpa [List.isEmpty_iff] using hne)]
  simp only []
  split_ifs <;>
  first
    | exact parallel_clips_eq env config template logo slides oracles completion _ hperm
    | exact processSeqAux_fst env config template logo slides oracles _ _

lemma run_poolWidth (env : RenderEnv) (config : VideoConfig) (slides : List Slide)
    (template : String) (logo : Option Img) (oracles : List ClipOracle)
    (completion : List Nat) (par ef : Bool) (wc fsz : ℚ) (hne : slides ≠ []) :
    (create_professional_placement_video env config slides template logo oracles completion
        par ef wc fsz).poolWidth
      = if par ∧ 3 < slides.length then some (min 4 slides.length) else none := by
  unfold create_professional_placement_video
  rw [if_neg (by simpa [List.isEmpty_iff] using hne)]
  simp only []
  split_ifs <;> rfl

lemma cleanup_fs_general (t : GenState)
    (hfs : t.fs = t.temp_files ++ [Artifact.outputVideo])
    (hout : Artifact.outputVideo ∉ t.temp_files) :
    (_cleanup_temp_files t).fs = [Artifact.outputVideo] := by
  unfold _cleanup_temp_files
  simp only [hfs]
  rw [List.filter_append]
  have h1 : t.temp_files.filter (fun a => decide (a ∉ t.temp_files)) = [] := by
    rw [List.filter_eq_nil_iff]
    intro a ha
    simp [ha]
  have h2 : [Artifact.outputVideo].filter (fun a => decide (a ∉ t.temp_files))
      = [Artifact.outputVideo] := by
    simp [hout]
  rw [h1, h2]
  rfl

lemma run_shape (env : RenderEnv) (config : VideoConfig) (slides : List Slide)
    (template : String) (logo : Option Img) (oracles : List ClipOracle)
    (completion : List Nat) (par ef : Bool) (wc fsz : ℚ) (hne : slides ≠ []) :
    ((create_professional_placement_video env config slides template logo oracles completion
        par ef wc fsz).clips.isEmpty = true →
      (create_professional_placement_video env config slides template logo oracles completion
        par ef wc fsz).output = none ∧
      (create_professional_placement_video env config slides template logo oracles completion
        par ef wc fsz).exporterInvoked = false)
    ∧ ((create_professional_placement_video env config slides template logo oracles
        completion par ef wc fsz).clips.isEmpty = false →
      (create_professional_placement_video env config slides template logo oracles completion
        par ef wc fsz).exporterInvoked = true ∧
      (ef = true →
        (create_professional_placement_video env config slides template logo oracles
          completion par ef wc fsz).output = none) ∧
      (ef = false →
        (create_professional_placement_video env config slides template logo oracles
          completion par ef wc fsz).output = some Artifact.outputVideo)) := by
  unfold create_professional_placement_video
  rw [if_neg (by simpa [List.isEmpty_iff] using hne)]
  simp only []
  split_ifs <;> constructor <;> intro h <;> simp_all

lemma run_export_fs (env : RenderEnv) (config : VideoConfig) (slides : List Slide)
    (template : String) (logo : Option Img) (oracles : List ClipOracle)
    (completion : List Nat) (par ef : Bool) (wc fsz : ℚ) (hne : slides ≠ [])
    (hperm : completion.Perm (List.range slides.length))
    (hnz : (List.range slides.length).filterMap
      (builderClip env config slides oracles template logo) ≠ []) :
    (create_professional_placement_video env config slides template logo oracles completion
        par ef wc fsz).fs = [Artifact.outputVideo] := by
  obtain ⟨lp, hlp, htp, hfp⟩ := processParAux_files env config template logo slides oracles
    completion { metrics := { total_slides := slides.length }, temp_files := [], fs := [] }
  obtain ⟨ls, hls, hts, hfs⟩ := processSeqAux_files env config template logo slides oracles
    (List.range slides.length)
    { metrics := { total_slides := slides.length }, temp_files := [], fs := [] }
  unfold create_professional_placement_video
  rw [if_neg (by simpa [List.isEmpty_iff] using hne)]
  simp only []
  split_ifs with h1 h2 h3 h4 h5
  · exfalso
    apply hnz
    rw [← parallel_clips_eq env config template logo slides oracles completion
      { metrics := { total_slides := slides.length }, temp_files := [], fs := [] } hperm]
    exact List.isEmpty_iff.mp h2
  · apply cleanup_fs_general <;> dsimp only
    · simp [hfp, htp]
    · rw [htp]
      intro hmem
      rcases List.mem_append.mp hmem with hm | hm
      · simp at hm
      · exact hlp _ hm rfl
  · apply cleanup_fs_general <;> dsimp only
    · simp [hfp, htp]
    · rw [htp]
      intro hmem
      rcases List.mem_append.mp hmem with hm | hm
      · simp at hm
      · exact hlp _ hm rfl
  · exfalso
    apply hnz
    rw [← processSeqAux_fst env config template logo slides oracles (List.range slides.length)
      { metrics := { total_slides := slides.length }, temp_files := [], fs := [] }]
    exact List.isEmpty_iff.mp h4
  · apply cleanup_fs_general <;> dsimp only
    · simp [hfs, hts]
    · rw [hts]
      intro hmem
      rcases List.mem_append.mp hmem with hm | hm
      · simp at hm
      · exact hls _ hm rfl
  · apply cleanup_fs_general <;> dsimp only
    · simp [hfs, hts]
    · rw [hts]
      intro hmem
      rcases List.mem_append.mp hmem with hm | hm
      · simp at hm
      · exact hls _ hm rfl

lemma getFontLoop_default (env : RenderEnv) (base_size : Nat) :
    ∀ l : List String, (∀ p ∈ l, env.pathExists p = false ∨ env.fontLoadFails p = true) →
      getFontLoop env base_size l = PFont.defaultFont := by
  intro l
  induction l with
  | nil => intro _; rfl
  | cons p ps ih =>
    intro h
    rw [getFontLoop]
    have hrest := ih (fun q hq => h q (by simp [hq]))
    rcases h p (by simp) with hp | hp
    · simp [hp, hrest]
    · simp [hp, hrest]

lemma _get_font_default (env : RenderEnv) (font_type : String) (width : Nat)
    (h : ∀ p ∈ font_paths, env.pathExists p = false ∨ env.fontLoadFails p = true) :
    _get_font env font_type width = PFont.defaultFont := by
  unfold _get_font
  exact getFontLoop_default env _ font_paths h

lemma clip_duration_bounds (env : RenderEnv) (config : VideoConfig) (o : ClipOracle)
    (slide : Slide) (template : String) (n t : Nat) (logo : Option Img) (s : GenState)
    (hminmax : config.min_slide_duration ≤ config.max_slide_duration) (c : Clip)
    (hc : (_create_slide_video_clip env config o slide template n t logo s).1 = some c) :
    config.min_slide_duration ≤ c.duration ∧ c.duration ≤ config.max_slide_duration := by
  unfold _create_slide_video_clip at hc
  cases h : _create_enhanced_slide env config slide template n t logo with
  | error e => rw [h] at hc; simp at hc
  | ok img =>
    rw [h] at hc
    by_cases hs : o.saveFails
    · simp [hs] at hc
    · simp only [hs, Bool.false_eq_true, if_false] at hc
      cases ha : o.audio with
      | ok d =>
        rw [ha] at hc
        simp only [Option.some_inj] at hc
        rw [← hc]
        constructor
        · exact le_max_right _ _
        · exact max_le (le_trans (min_le_right _ _) (le_refl _)) hminmax
      | loadFail =>
        rw [ha] at hc
        by_cases hfb : o.fallbackFails
        · simp [hfb] at hc
        · simp only [hfb, Bool.false_eq_true, if_false, Option.some_inj] at hc
          rw [← hc]
          exact ⟨le_refl _, hminmax⟩
      | noAudio =>
        rw [ha] at hc
        by_cases hsil : o.silentFails
        · simp [hsil] at hc
        · simp only [hsil, Bool.false_eq_true, if_false, Option.some_inj] at hc
          rw [← hc]
          exact ⟨le_refl _, hminmax⟩

lemma run_clips_seq (env : RenderEnv) (config : VideoConfig) (slides : List Slide)
    (template : String) (logo : Option Img) (oracles : List ClipOracle)
    (completion : List Nat) (par ef : Bool) (wc fsz : ℚ) (hne : slides ≠ [])
    (hnp : ¬(par = true ∧ 3 < slides.length)) :
    (create_professional_placement_video env config slides template logo oracles completion
        par ef wc fsz).clips
      = (List.range slides.length).filterMap
          (builderClip env config slides oracles template logo) := by
  unfold create_professional_placement_video
  rw [if_neg (by simpa [List.isEmpty_iff] using hne)]
  simp only []
  split_ifs with h1 h2 <;>
  first
    | exact absurd h1 hnp
    | exact processSeqAux_fst env config template logo slides oracles _ _

/-! The claims. -/

/-- C1: for every input slide list, the list of clips passed to
concatenation is ordered by original slide index: under parallel
assembly each completed clip is tagged with its submission index and
the collected list is re-sorted by that index before concatenation, so
for every completion order (any permutation of the submission indices)
the output clip order equals the input slide order. -/
theorem c1_parallel_order (env : RenderEnv) (config : VideoConfig) (slides : List Slide)
    (template : String) (logo : Option Img) (oracles : List ClipOracle)
    (completion : List Nat) (ef : Bool) (wc fsz : ℚ)
    (hperm : completion.Perm (List.range slides.length)) :
    (create_professional_placement_video env config slides template logo oracles completion
        true ef wc fsz).clips
      = (List.range slides.length).filterMap
          (builderClip env config slides oracles template logo) := by
  by_cases hne : slides = []
  · subst hne
    rw [run_empty]
    rfl
  · exact run_clips env config slides template logo oracles completion true ef wc fsz hne
      hperm

/-- Witness for C1 at a concrete out-of-order completion. -/
theorem c1_parallel_order_witness :
    ([2, 0, 3, 1] : List Nat).Perm (List.range slides4.length) ∧
    (create_professional_placement_video envA cfgA slides4 "corporate" none oracles4
        [2, 0, 3, 1] true false 0 0).clips
      = (List.range slides4.length).filterMap
          (builderClip envA cfgA slides4 oracles4 "corporate" none) :=
  ⟨by decide, c1_parallel_order envA cfgA slides4 "corporate" none oracles4 [2, 0, 3, 1]
    false 0 0 (by decide)⟩

/-- C2: for every slide whose narration synthesis succeeds with
narration duration `d`, the clip built by `_create_slide_video_clip`
has duration `max (min (d + 1) max_slide_duration) min_slide_duration`;
for every slide with no narration the clip built has duration exactly
`min_slide_duration`; and assuming `min_slide_duration ≤
max_slide_duration` every built clip's duration lies in
`[min_slide_duration, max_slide_duration]`. -/
theorem c2_clip_duration (env : RenderEnv) (config : VideoConfig) (slide : Slide)
    (template : String) (n t : Nat) (logo : Option Img) (s : GenState) (ht : 0 < t) :
    (∀ (o : ClipOracle) (d : ℚ), o.audio = AudioOutcome.ok d → o.saveFails = false →
      ∃ c, (_create_slide_video_clip env config o slide template n t logo s).1 = some c ∧
        c.duration
          = max (min (d + 1) config.max_slide_duration) config.min_slide_duration)
    ∧ (∀ o : ClipOracle, o.audio = AudioOutcome.noAudio → o.saveFails = false →
        o.silentFails = false →
        ∃ c, (_create_slide_video_clip env config o slide template n t logo s).1 = some c ∧
          c.duration = config.min_slide_duration)
    ∧ (config.min_slide_duration ≤ config.max_slide_duration →
        ∀ (o : ClipOracle) (c : Clip),
          (_create_slide_video_clip env config o slide template n t logo s).1 = some c →
          config.min_slide_duration ≤ c.duration ∧
            c.duration ≤ config.max_slide_duration) := by
  refine ⟨?_, ?_, ?_⟩
  · intro o d ha hs
    obtain ⟨img, -, heq⟩ := clip_branch_okAudio env config o slide template n t logo s
      (Nat.pos_iff_ne_zero.mp ht) hs d ha
    rw [heq]
    exact ⟨_, rfl, rfl⟩
  · intro o ha hs hsil
    obtain ⟨img, -, heq⟩ := clip_branch_noAudio env config o slide template n t logo s
      (Nat.pos_iff_ne_zero.mp ht) hs ha hsil
    rw [heq]
    exact ⟨_, rfl, rfl⟩
  · intro hmm o c hc
    exact clip_duration_bounds env config o slide template n t logo s hmm c hc

/-- Witness for C2 with a 10-second narration. -/
theorem c2_clip_duration_witness :
    (0 : Nat) < 1 ∧
    (∃ c, (_create_slide_video_clip envA cfgA { audio := AudioOutcome.ok 10 } slideA
        "corporate" 1 1 none initState).1 = some c ∧
      c.duration = max (min ((10 : ℚ) + 1) cfgA.max_slide_duration)
        cfgA.min_slide_duration) :=
  ⟨by decide, (c2_clip_duration envA cfgA slideA "corporate" 1 1 none initState
    (by decide)).1 { audio := AudioOutcome.ok 10 } 10 rfl rfl⟩

/-- C10: text wrapping loses no content: for every input text, font
measurement, and positive `max_width`, splitting each line returned by
`_wrap_text` on whitespace and concatenating the results in order
yields exactly the whitespace-split word sequence of the input. -/
theorem c10_wrap_text_lossless (env : RenderEnv) (text : String) (font : PFont)
    (max_width : Int) (hpos : 0 < max_width) :
    (_wrap_text env text font max_width).flatMap pySplitWs = pySplitWs text := by
  unfold _wrap_text
  exact wrapLoop_flatMap env font max_width (pySplitWs text) []
    (by simpa using goodWord_pySplitWs text)

/-- Witness for C10 on a concrete text. -/
theorem c10_wrap_text_lossless_witness :
    (0 : Int) < 100 ∧
    (_wrap_text envA "hello wide world" PFont.defaultFont 100).flatMap pySplitWs
      = pySplitWs "hello wide world" :=
  ⟨by decide, c10_wrap_text_lossless envA "hello wide world" PFont.defaultFont 100
    (by decide)⟩

/-- C3: the exporter is only invoked when at least one clip was built:
an empty slide list returns `None` immediately, with the exporter never
invoked and the filesystem untouched; and when every per-slide build
returns `None`, the run returns `None` without invoking the
exporter. -/
theorem c3_exporter_guard (env : RenderEnv) (config : VideoConfig) (template : String)
    (logo : Option Img) (oracles : List ClipOracle) (completion : List Nat)
    (par ef : Bool) (wc fsz : ℚ) :
    ((create_professional_placement_video env config [] template logo oracles completion
        par ef wc fsz).output = none
      ∧ (create_professional_placement_video env config [] template logo oracles completion
          par ef wc fsz).exporterInvoked = false
      ∧ (create_professional_placement_video env config [] template logo oracles completion
          par ef wc fsz).fs = [])
    ∧ (∀ slides : List Slide, completion.Perm (List.range slides.length) →
        (∀ i ∈ List.range slides.length,
          builderClip env config slides oracles template logo i = none) →
        (create_professional_placement_video env config slides template logo oracles
            completion par ef wc fsz).output = none
        ∧ (create_professional_placement_video env config slides template logo oracles
            completion par ef wc fsz).exporterInvoked = false) := by
  constructor
  · rw [run_empty]
    exact ⟨rfl, rfl, rfl⟩
  · intro slides hperm hall
    by_cases hne : slides = []
    · subst hne
      rw [run_empty]
      exact ⟨rfl, rfl⟩
    · have hz : (List.range slides.length).filterMap
          (builderClip env config slides oracles template logo) = [] := by
        rw [List.filterMap_eq_nil_iff]
        exact hall
      apply (run_shape env config slides template logo oracles completion par ef wc fsz
        hne).1
      rw [run_clips env config slides template logo oracles completion par ef wc fsz hne
        hperm, hz]
      rfl

/-- Witness for C3 with one slide whose image save fails. -/
theorem c3_exporter_guard_witness :
    ([0] : List Nat).Perm (List.range [slideA].length) ∧
    (∀ i ∈ List.range [slideA].length,
      builderClip envA cfgA [slideA] [{ saveFails := true }] "corporate" none i = none) ∧
    (create_professional_placement_video envA cfgA [slideA] "corporate" none
        [{ saveFails := true }] [0] false false 0 0).output = none ∧
    (create_professional_placement_video envA cfgA [slideA] "corporate" none
        [{ saveFails := true }] [0] false false 0 0).exporterInvoked = false :=
  ⟨by decide, by decide,
    (c3_exporter_guard envA cfgA "corporate" none [{ saveFails := true }] [0] false false
      0 0).2 [slideA] (by decide) (by decide)⟩

/-- C4 counterexample: with a slide whose narration synthesis succeeds
but whose audio-attached clip construction raises (an exception thrown
during clip composition), the call does not return `None` and the
failure counter is not incremented: the inner handler falls back to a
silent clip instead, refuting the claim that any exception anywhere
during clip composition drops the slide and increments
`failed_slides`. -/
theorem c4_counterexample :
    ((_create_slide_video_clip envA cfgA { audio := AudioOutcome.loadFail } slideA
        "corporate" 1 1 none initState).1).isSome = true
    ∧ (_create_slide_video_clip envA cfgA { audio := AudioOutcome.loadFail } slideA
        "corporate" 1 1 none initState).2.metrics.failed_slides = 0
    ∧ ¬((_create_slide_video_clip envA cfgA { audio := AudioOutcome.loadFail } slideA
        "corporate" 1 1 none initState).1 = none
      ∧ (_create_slide_video_clip envA cfgA { audio := AudioOutcome.loadFail } slideA
          "corporate" 1 1 none initState).2.metrics.failed_slides
        = initState.metrics.failed_slides + 1) := by
  decide

/-- C4 amended: if narration synthesis returns `None`, the builder still
returns a silent clip of `min_slide_duration` and the failure counter is
not incremented; an exception at a composition point outside the inner
audio block (image save, silent-clip construction, or the fallback
construction) is caught, returns `None`, and increments `failed_slides`
by exactly one; but an exception inside the audio-clip block is caught
by the inner handler and yields a silent `min_slide_duration` clip with
`processed_slides` (not `failed_slides`) incremented. -/
theorem c4_failure_policy (env : RenderEnv) (config : VideoConfig) (slide : Slide)
    (template : String) (n t : Nat) (logo : Option Img) (s : GenState) (ht : 0 < t) :
    (∀ o : ClipOracle, o.saveFails = false → o.audio = AudioOutcome.noAudio →
      o.silentFails = false →
      ∃ c, (_create_slide_video_clip env config o slide template n t logo s).1 = some c ∧
        c.duration = config.min_slide_duration ∧ c.hasAudio = false ∧
        (_create_slide_video_clip env config o slide template n t logo s).2.metrics.failed_slides
          = s.metrics.failed_slides ∧
        (_create_slide_video_clip env config o slide template n t logo s).2.metrics.processed_slides
          = s.metrics.processed_slides + 1)
    ∧ (∀ o : ClipOracle,
        (o.saveFails = true
          ∨ (o.audio = AudioOutcome.loadFail ∧ o.saveFails = false ∧
              o.fallbackFails = true)
          ∨ (o.audio = AudioOutcome.noAudio ∧ o.saveFails = false ∧
              o.silentFails = true)) →
        (_create_slide_video_clip env config o slide template n t logo s).1 = none ∧
        (_create_slide_video_clip env config o slide template n t logo s).2.metrics.failed_slides
          = s.metrics.failed_slides + 1 ∧
        (_create_slide_video_clip env config o slide template n t logo s).2.metrics.processed_slides
          = s.metrics.processed_slides)
    ∧ (∀ o : ClipOracle, o.saveFails = false → o.audio = AudioOutcome.loadFail →
        o.fallbackFails = false →
        ∃ c, (_create_slide_video_clip env config o slide template n t logo s).1 = some c ∧
          c.duration = config.min_slide_duration ∧ c.hasAudio = false ∧
          (_create_slide_video_clip env config o slide template n t logo s).2.metrics.failed_slides
            = s.metrics.failed_slides ∧
          (_create_slide_video_clip env config o slide template n t logo s).2.metrics.processed_slides
            = s.metrics.processed_slides + 1) := by
  refine ⟨?_, ?_, ?_⟩
  · intro o hs ha hsil
    obtain ⟨img, -, heq⟩ := clip_branch_noAudio env config o slide template n t logo s
      (Nat.pos_iff_ne_zero.mp ht) hs ha hsil
    rw [heq]
    exact ⟨_, rfl, rfl, rfl, by simp [markProcessed, addTemp], by simp [markProcessed, addTemp]⟩
  · intro o hcase
    rcases hcase with hs | ⟨ha, hs, hfb⟩ | ⟨ha, hs, hsil⟩
    · rw [clip_branch_saveFails env config o slide template n t logo s
        (Nat.pos_iff_ne_zero.mp ht) hs]
      exact ⟨rfl, by simp [markFailed], by simp [markFailed]⟩
    · rw [clip_branch_loadFail_fallbackFails env config o slide template n t logo s
        (Nat.pos_iff_ne_zero.mp ht) hs ha hfb]
      exact ⟨rfl, by simp [markFailed, addTemp], by simp [markFailed, addTemp]⟩
    · rw [clip_branch_silentFails env config o slide template n t logo s
        (Nat.pos_iff_ne_zero.mp ht) hs ha hsil]
      exact ⟨rfl, by simp [markFailed, addTemp], by simp [markFailed, addTemp]⟩
  · intro o hs ha hfb
    obtain ⟨img, -, heq⟩ := clip_branch_loadFail_recovered env config o slide template n t
      logo s (Nat.pos_iff_ne_zero.mp ht) hs ha hfb
    rw [heq]
    exact ⟨_, rfl, rfl, rfl, by simp [markProcessed, addTemp], by simp [markProcessed, addTemp]⟩

/-- Witness for the amended C4: the no-narration case succeeds silently
and the save-failure case drops the slide with one failure count. -/
theorem c4_failure_policy_witness :
    (∃ c, (_create_slide_video_clip envA cfgA {} slideA "corporate" 1 1 none
        initState).1 = some c ∧
      c.duration = cfgA.min_slide_duration ∧ c.hasAudio = false ∧
      (_create_slide_video_clip envA cfgA {} slideA "corporate" 1 1 none
        initState).2.metrics.failed_slides = initState.metrics.failed_slides ∧
      (_create_slide_video_clip envA cfgA {} slideA "corporate" 1 1 none
        initState).2.metrics.processed_slides = initState.metrics.processed_slides + 1)
    ∧ ((_create_slide_video_clip envA cfgA { saveFails := true } slideA "corporate" 1 1
        none initState).1 = none ∧
      (_create_slide_video_clip envA cfgA { saveFails := true } slideA "corporate" 1 1
        none initState).2.metrics.failed_slides = initState.metrics.failed_slides + 1 ∧
      (_create_slide_video_clip envA cfgA { saveFails := true } slideA "corporate" 1 1
        none initState).2.metrics.processed_slides = initState.metrics.processed_slides) :=
  ⟨(c4_failure_policy envA cfgA slideA "corporate" 1 1 none initState (by decide)).1 {}
    rfl rfl rfl,
   (c4_failure_policy envA cfgA slideA "corporate" 1 1 none initState (by decide)).2.1
    { saveFails := true } (Or.inl rfl)⟩

/-- C5: with parallel processing enabled, assembly uses a bounded worker
pool of width `min(4, N)` iff `N > 3`; for `N ≤ 3` the slides are
processed sequentially, in input order, on the calling thread. -/
theorem c5_pool_policy (env : RenderEnv) (config : VideoConfig) (slides : List Slide)
    (template : String) (logo : Option Img) (oracles : List ClipOracle)
    (completion : List Nat) (ef : Bool) (wc fsz : ℚ) :
    ((create_professional_placement_video env config slides template logo oracles completion
        true ef wc fsz).poolWidth = some (min 4 slides.length) ↔ 3 < slides.length)
    ∧ (slides.length ≤ 3 →
        (create_professional_placement_video env config slides template logo oracles
          completion true ef wc fsz).poolWidth = none
        ∧ (create_professional_placement_video env config slides template logo oracles
            completion true ef wc fsz).clips
          = (List.range slides.length).filterMap
              (builderClip env config slides oracles template logo)) := by
  by_cases hne : slides = []
  · subst hne
    rw [run_empty]
    refine ⟨by simp, fun _ => ⟨rfl, rfl⟩⟩
  · constructor
    · rw [run_poolWidth env config slides template logo oracles completion true ef wc fsz
        hne]
      by_cases hlen : 3 < slides.length
      · simp [hlen]
      · simp [hlen]
    · intro hlen
      constructor
      · rw [run_poolWidth env config slides template logo oracles completion true ef wc
          fsz hne]
        simp [Nat.not_lt.mpr hlen]
      · exact run_clips_seq env config slides template logo oracles completion true ef wc
          fsz hne (by simp [Nat.not_lt.mpr hlen])

/-- Witness for C5 with two slides: sequential processing in input
order. -/
theorem c5_pool_policy_witness :
    ([slideA, slideA].length ≤ 3) ∧
    ((create_professional_placement_video envA cfgA [slideA, slideA] "corporate" none
        [{}, {}] [0, 1] true false 0 0).poolWidth = none
      ∧ (create_professional_placement_video envA cfgA [slideA, slideA] "corporate" none
          [{}, {}] [0, 1] true false 0 0).clips
        = (List.range [slideA, slideA].length).filterMap
            (builderClip envA cfgA [slideA, slideA] [{}, {}] "corporate" none)) :=
  ⟨by decide, (c5_pool_policy envA cfgA [slideA, slideA] "corporate" none [{}, {}] [0, 1]
    false 0 0).2 (by decide)⟩

/-- C6 counterexample: a one-slide run whose export raises returns
`None` and cleans the registered temp files, but the partial output
video file — never added to the temp-file registry — is left on the
filesystem, refuting the claim that the partial output video file is
cleaned up. -/
theorem c6_counterexample :
    (create_professional_placement_video envA cfgA [slideA] "corporate" none
        [{ audio := AudioOutcome.ok 5 }] [0] false true 0 0).output = none
    ∧ Artifact.outputVideo ∈ (create_professional_placement_video envA cfgA [slideA]
        "corporate" none [{ audio := AudioOutcome.ok 5 }] [0] false true 0 0).fs := by
  decide

/-- C6 amended: if the final export raises, the run cleans up every
registered temporary artifact (rendered slide images and narration
audio), reports failure by returning `None`, and nothing claims
success; however the partial output video file, which is never
registered, is the one artifact left behind: the final filesystem holds
exactly it. -/
theorem c6_export_cleanup (env : RenderEnv) (config : VideoConfig) (slides : List Slide)
    (template : String) (logo : Option Img) (oracles : List ClipOracle)
    (completion : List Nat) (par : Bool) (wc fsz : ℚ) (hne : slides ≠ [])
    (hperm : completion.Perm (List.range slides.length))
    (hnz : (List.range slides.length).filterMap
      (builderClip env config slides oracles template logo) ≠ []) :
    (create_professional_placement_video env config slides template logo oracles completion
        par true wc fsz).output = none
    ∧ (create_professional_placement_video env config slides template logo oracles
        completion par true wc fsz).exporterInvoked = true
    ∧ (create_professional_placement_video env config slides template logo oracles
        completion par true wc fsz).fs = [Artifact.outputVideo] := by
  have hclips := run_clips env config slides template logo oracles completion par true wc
    fsz hne hperm
  have hnem : (create_professional_placement_video env config slides template logo oracles
      completion par true wc fsz).clips.isEmpty = false := by
    rw [hclips]
    simpa [List.isEmpty_iff] using hnz
  obtain ⟨hexp, hout, -⟩ := (run_shape env config slides template logo oracles completion
    par true wc fsz hne).2 hnem
  exact ⟨hout rfl, hexp,
    run_export_fs env config slides template logo oracles completion par true wc fsz hne
      hperm hnz⟩

/-- Witness for the amended C6 on a concrete one-slide run. -/
theorem c6_export_cleanup_witness :
    (create_professional_placement_video envA cfgA [slideA] "corporate" none
        [{ audio := AudioOutcome.ok 5 }] [0] false true 0 0).output = none
    ∧ (create_professional_placement_video envA cfgA [slideA] "corporate" none
        [{ audio := AudioOutcome.ok 5 }] [0] false true 0 0).exporterInvoked = true
    ∧ (create_professional_placement_video envA cfgA [slideA] "corporate" none
        [{ audio := AudioOutcome.ok 5 }] [0] false true 0 0).fs
      = [Artifact.outputVideo] :=
  c6_export_cleanup envA cfgA [slideA] "corporate" none [{ audio := AudioOutcome.ok 5 }]
    [0] false 0 0 (by decide) (by decide) (by decide)

/-- C7: slide rendering is total: for every slide record (including
empty title or content), every template name (unknown names fall back
to the default scheme), and every `slide_num`/`total_slides` pair
arising from a non-empty slide list (`0 < total_slides`), the renderer
returns (never raises) an image whose dimensions equal the configured
resolution; and font resolution probes the candidate paths and falls
back to the built-in default font without raising when no candidate
loads. -/
theorem c7_render_total (env : RenderEnv) (config : VideoConfig) (slide : Slide)
    (template : String) (slide_num total_slides : Nat) (logo : Option Img) :
    (0 < total_slides →
      ∃ img, _create_enhanced_slide env config slide template slide_num total_slides logo
          = Except.ok img
        ∧ img.width = config.resolution.1 ∧ img.height = config.resolution.2)
    ∧ (∀ (font_type : String) (width : Nat),
        (∀ p ∈ font_paths, env.pathExists p = false ∨ env.fontLoadFails p = true) →
        _get_font env font_type width = PFont.defaultFont) := by
  constructor
  · intro ht
    obtain ⟨img, heq, hw, hh, -, -⟩ := _create_enhanced_slide_spec env config slide
      template slide_num total_slides logo (Nat.pos_iff_ne_zero.mp ht)
    exact ⟨img, heq, hw, hh⟩
  · intro ft w h
    exact _get_font_default env ft w h

/-- Witness for C7: an unknown template name, an empty slide, and an
environment with no loadable fonts. -/
theorem c7_render_total_witness :
    (∃ img, _create_enhanced_slide envA cfgA { title := "", content := "" } "unknown" 1 1
        none = Except.ok img
      ∧ img.width = cfgA.resolution.1 ∧ img.height = cfgA.resolution.2)
    ∧ _get_font envA "title" 200 = PFont.defaultFont :=
  ⟨(c7_render_total envA cfgA { title := "", content := "" } "unknown" 1 1 none).1
    (by decide),
   (c7_render_total envA cfgA { title := "", content := "" } "unknown" 1 1 none).2
    "title" 200 (by decide)⟩

/-- C8: rendering is deterministic: the renderer and the initials-logo
generator are pure functions of their declared inputs and of the
deterministic fields of the process environment — both are invariant
under the environment's ambient randomness source, and the logo's
hash-based color choice is a function of the (per-process) string hash
of the company name only. -/
theorem c8_render_deterministic (env : RenderEnv) (r1 r2 : Nat → Nat)
    (config : VideoConfig) (slide : Slide) (template : String) (n t : Nat)
    (logo : Option Img) (company_name : String) :
    _create_enhanced_slide { env with rand := r1 } config slide template n t logo
      = _create_enhanced_slide { env with rand := r2 } config slide template n t logo
    ∧ generate_initials_logo { env with rand := r1 } company_name
      = generate_initials_logo { env with rand := r2 } company_name := by
  constructor
  · rw [_create_enhanced_slide_rand env r1 config slide template n t logo,
      _create_enhanced_slide_rand env r2 config slide template n t logo]
  · rw [generate_initials_logo_rand env r1 company_name,
      generate_initials_logo_rand env r2 company_name]

/-- C9 counterexample: the renderer actually used for the assembled
video (`_create_enhanced_slide` via `_add_slide_content`) draws the
slide title as stripped, not upper-cased: for the concrete slide with
title "acme", the upper-cased form "ACME" is not among the drawn
strings while the stripped title "acme" is. -/
theorem c9_counterexample :
    pyUpper slideA.title = "ACME"
    ∧ pyUpper slideA.title ∉ renderStrings (_create_enhanced_slide envA cfgA slideA
        "corporate" 1 1 none)
    ∧ pyStrip slideA.title ∈ renderStrings (_create_enhanced_slide envA cfgA slideA
        "corporate" 1 1 none) := by
  decide

/-- C9 amended: for every slide whose stripped title is non-empty, the
rendered slide image assembled into the video draws the stripped title
(not upper-cased) horizontally centered, at x offset
`(width - measured_text_width) // 2` computed from the title's measured
width under the rendering title font; the upper-casing described by the
claim occurs only in `create_interactive_slide`, which the assembled
pipeline never calls. -/
theorem c9_title_centered (env : RenderEnv) (config : VideoConfig) (slide : Slide)
    (template : String) (slide_num total_slides : Nat) (logo : Option Img)
    (ht : 0 < total_slides) (htitle : pyStrip slide.title ≠ "") :
    ∃ img, _create_enhanced_slide env config slide template slide_num total_slides logo
        = Except.ok img
      ∧ DrawOp.text
          (Int.fdiv ((config.resolution.1 : Int)
            - bboxW env (_get_font env "title" config.resolution.1) (pyStrip slide.title))
            2)
          ((config.resolution.2 / 6 : Nat) : Int) (pyStrip slide.title)
          (_get_font env "title" config.resolution.1) (PColor.rgb 255 255 255)
        ∈ img.ops := by
  obtain ⟨img, heq, -, -, -, hext⟩ := _create_enhanced_slide_spec env config slide
    template slide_num total_slides logo (Nat.pos_iff_ne_zero.mp ht)
  exact ⟨img, heq, mem_of_opsExtends hext
    (title_mem_base env config slide template logo htitle)⟩

/-- Witness for the amended C9 on the concrete slide. -/
theorem c9_title_centered_witness :
    ∃ img, _create_enhanced_slide envA cfgA slideA "corporate" 1 1 none = Except.ok img
      ∧ DrawOp.text
          (Int.fdiv ((cfgA.resolution.1 : Int)
            - bboxW envA (_get_font envA "title" cfgA.resolution.1) (pyStrip slideA.title))
            2)
          ((cfgA.resolution.2 / 6 : Nat) : Int) (pyStrip slideA.title)
          (_get_font envA "title" cfgA.resolution.1) (PColor.rgb 255 255 255)
        ∈ img.ops :=
  c9_title_centered envA cfgA slideA "corporate" 1 1 none (by decide) (by decide)
